import Mathlib

/-!
Shallow embedding of the classdock roster core (src/classdock/roster/models.py,
manager.py, sync.py and src/classdock/utils/database.py) and proofs about it.

Conventions of the embedding:
* The SQLite store is a `DB` record holding the three tables as lists of rows
  plus the AUTOINCREMENT counters; SQL statements executed by `RosterManager`
  become pure functions over `DB`.
* Python exceptions (sqlite3.IntegrityError, ValueError, AttributeError) become
  `Except String`; the message identifies the exception.
* Timestamps are abstract `Nat` instants; every `datetime.now()` /
  `CURRENT_TIMESTAMP` occurring during one top-level call is modeled by one
  `now : Nat` parameter of that call.
* Email strings are modeled as lists of code points (`List Nat`) so that the
  `email.lower().strip()` normalization of `Student.__post_init__` and
  `RosterManager.get_student_by_email` can be stated faithfully (ASCII case
  folding, ASCII whitespace stripping). Other strings are compared only for
  equality and stay `String`.
-/

/-- Code points of a string literal, used to build concrete email values. -/
def codes (s : String) : List Nat := s.data.map Char.toNat

/-- ASCII case folding of one code point, as Python `str.lower` acts on ASCII. -/
def lowerChar (n : Nat) : Nat := if 65 ≤ n ∧ n ≤ 90 then n + 32 else n

/-- Whitespace code points removed by Python `str.strip`. -/
def isSpaceCode (n : Nat) : Bool :=
  decide (n = 32 ∨ n = 9 ∨ n = 10 ∨ n = 13 ∨ n = 11 ∨ n = 12)

/-- Python `str.lower` on a code-point list. -/
def pyLower (s : List Nat) : List Nat := s.map lowerChar

/-- Python `str.strip` on a code-point list. -/
def pyStrip (s : List Nat) : List Nat :=
  ((s.dropWhile isSpaceCode).reverse.dropWhile isSpaceCode).reverse

/-- `email.lower().strip()`, the normalization used by `Student.__post_init__`
and by the lookup argument of `RosterManager.get_student_by_email`. -/
def normEmail (s : List Nat) : List Nat := pyStrip (pyLower s)

/-- SQL `=` on two nullable values: NULL compares unequal to everything. -/
def sqlEqS : Option String → Option String → Bool
  | some a, some b => a == b
  | _, _ => false

/-- Python truthiness test `not s` for an optional string (None and "" falsy). -/
def strFalsy : Option String → Bool
  | none => true
  | some s => s == ""

/-! ## Rows of the three tables (src/classdock/utils/database.py, initialize_database) -/

/-- One row of the `students` table. -/
structure StudentRow where
  id : Nat
  email : List Nat
  name : String
  github_username : Option String
  github_id : Option Nat
  github_organization : String
  enrolled_date : Option Nat
  status : String
  notes : Option String
  created_at : Option Nat
  updated_at : Option Nat
deriving DecidableEq

/-- One row of the `assignments` table. -/
structure AssignmentRow where
  id : Nat
  name : String
  classroom_id : Option Nat
  classroom_url : Option String
  template_repo_url : Option String
  github_organization : String
  assignment_type : String
  deadline : Option Nat
  points_available : Int
  status : String
  created_at : Option Nat
  updated_at : Option Nat
deriving DecidableEq

/-- One row of the `student_assignments` junction table. -/
structure LinkRow where
  id : Nat
  student_id : Nat
  assignment_id : Nat
  repository_url : Option String
  repository_name : Option String
  acceptance_status : String
  accepted_at : Option Nat
  last_commit_at : Option Nat
  last_synced_at : Option Nat
  notes : Option String
  created_at : Option Nat
  updated_at : Option Nat
deriving DecidableEq

/-- The store: the three tables plus the AUTOINCREMENT counters. -/
structure DB where
  students : List StudentRow
  assignments : List AssignmentRow
  links : List LinkRow
  nextStudentId : Nat
  nextAssignmentId : Nat
  nextLinkId : Nat
deriving DecidableEq

/-! ## Entities (src/classdock/roster/models.py dataclasses) -/

/-- The `Student` dataclass; `id` is `None` before the row is persisted. -/
structure Student where
  email : List Nat
  name : String
  github_organization : String
  id : Option Nat
  github_username : Option String
  github_id : Option Nat
  enrolled_date : Option Nat
  status : String
  notes : Option String
  created_at : Option Nat
  updated_at : Option Nat
deriving DecidableEq

/-- The `Assignment` dataclass. -/
structure Assignment where
  name : String
  github_organization : String
  id : Option Nat
  classroom_id : Option Nat
  classroom_url : Option String
  template_repo_url : Option String
  assignment_type : String
  deadline : Option Nat
  points_available : Int
  status : String
  created_at : Option Nat
  updated_at : Option Nat
deriving DecidableEq

/-- The `StudentAssignment` dataclass. -/
structure StudentAssignment where
  student_id : Nat
  assignment_id : Nat
  id : Option Nat
  repository_url : Option String
  repository_name : Option String
  acceptance_status : String
  accepted_at : Option Nat
  last_commit_at : Option Nat
  last_synced_at : Option Nat
  notes : Option String
  created_at : Option Nat
  updated_at : Option Nat
deriving DecidableEq

def validStudentStatus (s : String) : Bool :=
  s == "active" || s == "inactive" || s == "dropped"

def validAssignmentType (s : String) : Bool :=
  s == "individual" || s == "group"

def validAssignmentStatus (s : String) : Bool :=
  s == "active" || s == "closed" || s == "archived"

def validAcceptanceStatus (s : String) : Bool :=
  s == "pending" || s == "accepted" || s == "completed" || s == "submitted"

/-- `Student.__post_init__`: required-field check, email normalization, status
check (models.py lines 42-53). -/
def Student.validate (s : Student) : Except String Student :=
  if s.email.isEmpty || s.name == "" || s.github_organization == "" then
    .error ("email, name, and github_organization are required")
  else
    let s := { s with email := normEmail s.email }
    if validStudentStatus s.status then .ok s
    else .error ("status must be one of active, inactive, dropped")

/-- `Assignment.__post_init__` (models.py lines 131-144). -/
def Assignment.validate (a : Assignment) : Except String Assignment :=
  if a.name == "" || a.github_organization == "" then
    .error ("name and github_organization are required")
  else if !validAssignmentType a.assignment_type then
    .error ("assignment_type must be one of individual, group")
  else if !validAssignmentStatus a.status then
    .error ("status must be one of active, closed, archived")
  else .ok a

/-- `StudentAssignment.__post_init__` (models.py lines 223-231); a zero id is
falsy in Python, hence the `≠ 0` reading of `not self.student_id`. -/
def StudentAssignment.validate (sa : StudentAssignment) : Except String StudentAssignment :=
  if sa.student_id == 0 || sa.assignment_id == 0 then
    .error ("student_id and assignment_id are required")
  else if !validAcceptanceStatus sa.acceptance_status then
    .error ("acceptance_status must be one of pending, accepted, completed, submitted")
  else .ok sa

/-- `Student.from_dict` applied to a fetched row: the constructor runs
`__post_init__` on the row's fields. -/
def studentOfRow (r : StudentRow) : Except String Student :=
  Student.validate
    { email := r.email, name := r.name, github_organization := r.github_organization,
      id := some r.id, github_username := r.github_username, github_id := r.github_id,
      enrolled_date := r.enrolled_date, status := r.status, notes := r.notes,
      created_at := r.created_at, updated_at := r.updated_at }

/-- `Assignment.from_dict` applied to a fetched row. -/
def assignmentOfRow (r : AssignmentRow) : Except String Assignment :=
  Assignment.validate
    { name := r.name, github_organization := r.github_organization, id := some r.id,
      classroom_id := r.classroom_id, classroom_url := r.classroom_url,
      template_repo_url := r.template_repo_url, assignment_type := r.assignment_type,
      deadline := r.deadline, points_available := r.points_available, status := r.status,
      created_at := r.created_at, updated_at := r.updated_at }

/-- `StudentAssignment.from_dict` applied to a fetched row. -/
def linkOfRow (r : LinkRow) : Except String StudentAssignment :=
  StudentAssignment.validate
    { student_id := r.student_id, assignment_id := r.assignment_id, id := some r.id,
      repository_url := r.repository_url, repository_name := r.repository_name,
      acceptance_status := r.acceptance_status, accepted_at := r.accepted_at,
      last_commit_at := r.last_commit_at, last_synced_at := r.last_synced_at,
      notes := r.notes, created_at := r.created_at, updated_at := r.updated_at }

/-! ## Record-store operations (src/classdock/roster/manager.py) -/

deriving instance DecidableEq for Except

/-- Helper for a generic Except-valued list comprehension (Python raises on the
first failing element). -/
def mapExcept (f : α → Except String β) : List α → Except String (List β)
  | [] => .ok []
  | a :: l =>
    match f a with
    | .error e => .error e
    | .ok b =>
      match mapExcept f l with
      | .error e => .error e
      | .ok bs => .ok (b :: bs)

/-- Stable-enough insertion used to model SQL `ORDER BY`; tie order among equal
keys is unspecified by SQL, so any deterministic order is a faithful model. -/
def insertBy (lt : α → α → Bool) (a : α) : List α → List α
  | [] => [a]
  | b :: bs => if lt a b then a :: b :: bs else b :: insertBy lt a bs

def sortBy (lt : α → α → Bool) (l : List α) : List α := l.foldr (insertBy lt) []

/-- Lexicographic code-point comparison, modeling SQLite's BINARY collation for
`ORDER BY name`. -/
def charsLt : List Char → List Char → Bool
  | _, [] => false
  | [], _ :: _ => true
  | a :: as, b :: bs =>
    Nat.blt a.toNat b.toNat || (a.toNat == b.toNat && charsLt as bs)

def strLt (a b : String) : Bool := charsLt a.data b.data

/-- The row written by the INSERT of `add_student`; `enrolled_date` falls back
to now through Python's `or`. -/
def studentInsertRow (s : Student) (now : Nat) (id : Nat) : StudentRow :=
  { id := id, email := s.email, name := s.name,
    github_username := s.github_username, github_id := s.github_id,
    github_organization := s.github_organization,
    enrolled_date := some (s.enrolled_date.getD now), status := s.status,
    notes := s.notes, created_at := some now, updated_at := some now }

/-- `RosterManager.add_student` (manager.py lines 37-71): INSERT subject to the
`UNIQUE(email, github_organization)` constraint of the `students` table. -/
def add_student (s : Student) (now : Nat) (db : DB) : Except String (Nat × DB) :=
  if db.students.any (fun r => r.email == s.email && r.github_organization == s.github_organization) then
    .error ("UNIQUE constraint failed: students.email, students.github_organization")
  else
    .ok (db.nextStudentId,
      { db with students := db.students ++ [studentInsertRow s now db.nextStudentId],
                nextStudentId := db.nextStudentId + 1 })

/-- `RosterManager.update_student` (manager.py lines 73-114): ValueError on a
null id; otherwise UPDATE ... WHERE id = ?, which still enforces the composite
UNIQUE constraint against the other rows. -/
def update_student (s : Student) (now : Nat) (db : DB) : Except String (Bool × DB) :=
  match s.id with
  | none => .error ("Student ID is required for update")
  | some i =>
    if (db.students.filter (fun r => r.id == i)).isEmpty then .ok (false, db)
    else if db.students.any (fun r =>
        !(r.id == i) && r.email == s.email && r.github_organization == s.github_organization) then
      .error ("UNIQUE constraint failed: students.email, students.github_organization")
    else
      .ok (true,
        { db with students := db.students.map (fun r =>
            if r.id == i then
              { r with
                email := s.email, name := s.name,
                github_username := s.github_username, github_id := s.github_id,
                github_organization := s.github_organization,
                enrolled_date := s.enrolled_date, status := s.status,
                notes := s.notes, updated_at := some now }
            else r) })

/-- `RosterManager.get_student_by_email` (manager.py lines 133-159): the lookup
argument is normalized with `email.lower().strip()` before the query. -/
def get_student_by_email (email : List Nat) (github_organization : String) (db : DB) :
    Except String (Option Student) :=
  match (db.students.filter (fun r =>
      r.email == normEmail email && r.github_organization == github_organization)).head? with
  | none => .ok none
  | some row => (studentOfRow row).map some

/-- The row set consulted by `get_student_by_github`; an empty or missing
organization is falsy in Python and selects the organization-unscoped query. -/
def ghRows (students : List StudentRow) (u : Option String) (org : Option String) :
    List StudentRow :=
  if strFalsy org then
    students.filter (fun r => sqlEqS r.github_username u)
  else
    students.filter (fun r => sqlEqS r.github_username u && some r.github_organization == org)

/-- `RosterManager.get_student_by_github` (manager.py lines 161-190). -/
def get_student_by_github (github_username : Option String) (github_organization : Option String)
    (db : DB) : Except String (Option Student) :=
  match (ghRows db.students github_username github_organization).head? with
  | none => .ok none
  | some row => (studentOfRow row).map some

/-- `RosterManager.list_students` (manager.py lines 192-223). -/
def list_students (github_organization : Option String) (status : String) (db : DB) :
    Except String (List Student) :=
  let rows :=
    if strFalsy github_organization then
      db.students.filter (fun r => r.status == status)
    else
      db.students.filter (fun r =>
        some r.github_organization == github_organization && r.status == status)
  mapExcept studentOfRow (sortBy (fun a b => strLt a.name b.name) rows)

/-- The row written by the INSERT of `add_assignment`. -/
def assignmentInsertRow (a : Assignment) (now : Nat) (id : Nat) : AssignmentRow :=
  { id := id, name := a.name, classroom_id := a.classroom_id,
    classroom_url := a.classroom_url, template_repo_url := a.template_repo_url,
    github_organization := a.github_organization, assignment_type := a.assignment_type,
    deadline := a.deadline, points_available := a.points_available, status := a.status,
    created_at := some now, updated_at := some now }

/-- `RosterManager.add_assignment` (manager.py lines 283-319): INSERT subject to
the UNIQUE constraint on `assignments.name`. -/
def add_assignment (a : Assignment) (now : Nat) (db : DB) : Except String (Nat × DB) :=
  if db.assignments.any (fun r => r.name == a.name) then
    .error ("UNIQUE constraint failed: assignments.name")
  else
    .ok (db.nextAssignmentId,
      { db with assignments := db.assignments ++ [assignmentInsertRow a now db.nextAssignmentId],
                nextAssignmentId := db.nextAssignmentId + 1 })

/-- `RosterManager.update_assignment` (manager.py lines 321-364). -/
def update_assignment (a : Assignment) (now : Nat) (db : DB) : Except String (Bool × DB) :=
  match a.id with
  | none => .error ("Assignment ID is required for update")
  | some i =>
    if (db.assignments.filter (fun r => r.id == i)).isEmpty then .ok (false, db)
    else if db.assignments.any (fun r => !(r.id == i) && r.name == a.name) then
      .error ("UNIQUE constraint failed: assignments.name")
    else
      .ok (true,
        { db with assignments := db.assignments.map (fun r =>
            if r.id == i then
              { r with
                name := a.name, classroom_id := a.classroom_id,
                classroom_url := a.classroom_url, template_repo_url := a.template_repo_url,
                github_organization := a.github_organization,
                assignment_type := a.assignment_type, deadline := a.deadline,
                points_available := a.points_available, status := a.status,
                updated_at := some now }
            else r) })

/-- `RosterManager.get_assignment_by_id` (manager.py lines 366-381). -/
def get_assignment_by_id (assignment_id : Nat) (db : DB) : Except String (Option Assignment) :=
  match (db.assignments.filter (fun r => r.id == assignment_id)).head? with
  | none => .ok none
  | some row => (assignmentOfRow row).map some

/-- `RosterManager.get_assignment_by_name` (manager.py lines 383-398); the name
is globally unique, the query is not organization-scoped. -/
def get_assignment_by_name (name : String) (db : DB) : Except String (Option Assignment) :=
  match (db.assignments.filter (fun r => r.name == name)).head? with
  | none => .ok none
  | some row => (assignmentOfRow row).map some

/-- SQL `=` between a non-null column and a nullable bound parameter, as used by
the link queries when a dataclass passes a possibly-None id. -/
def sqlEqN (column : Nat) : Option Nat → Bool
  | some v => column == v
  | none => false

/-- The WHERE clause of `get_student_assignment`. -/
def pairPred (sid aid : Option Nat) (l : LinkRow) : Bool :=
  sqlEqN l.student_id sid && sqlEqN l.assignment_id aid

/-- The row written by the INSERT of `link_student_to_assignment`: the create
path does not set `accepted_at` or `last_synced_at`. -/
def linkInsertRow (sid aid : Nat) (repository_url repository_name : Option String)
    (acceptance_status : String) (now : Nat) (id : Nat) : LinkRow :=
  { id := id, student_id := sid, assignment_id := aid,
    repository_url := repository_url, repository_name := repository_name,
    acceptance_status := acceptance_status, accepted_at := none,
    last_commit_at := none, last_synced_at := none, notes := none,
    created_at := some now, updated_at := some now }

/-- `RosterManager.link_student_to_assignment` (manager.py lines 456-501):
INSERT subject to NOT NULL on both ids and `UNIQUE(student_id, assignment_id)`. -/
def link_student_to_assignment (student_id assignment_id : Option Nat)
    (repository_url repository_name : Option String) (acceptance_status : String)
    (now : Nat) (db : DB) : Except String (Nat × DB) :=
  match student_id, assignment_id with
  | some sid, some aid =>
    if db.links.any (fun l => l.student_id == sid && l.assignment_id == aid) then
      .error ("UNIQUE constraint failed: student_assignments.student_id, student_assignments.assignment_id")
    else
      .ok (db.nextLinkId,
        { db with
          links := db.links ++
            [linkInsertRow sid aid repository_url repository_name acceptance_status now
              db.nextLinkId],
          nextLinkId := db.nextLinkId + 1 })
  | _, _ => .error ("NOT NULL constraint failed: student_assignments ids")

/-- The SET clause of `update_student_assignment` applied to one row. -/
def updLinkRow (sa : StudentAssignment) (now : Nat) (l : LinkRow) : LinkRow :=
  { l with
    repository_url := sa.repository_url, repository_name := sa.repository_name,
    acceptance_status := sa.acceptance_status, accepted_at := sa.accepted_at,
    last_commit_at := sa.last_commit_at, last_synced_at := sa.last_synced_at,
    notes := sa.notes, updated_at := some now }

/-- `RosterManager.update_student_assignment` (manager.py lines 503-548). -/
def update_student_assignment (sa : StudentAssignment) (now : Nat) (db : DB) :
    Except String (Bool × DB) :=
  match sa.id with
  | none => .error ("StudentAssignment ID is required for update")
  | some i =>
    if (db.links.filter (fun l => l.id == i)).isEmpty then .ok (false, db)
    else
      .ok (true,
        { db with links := db.links.map (fun l =>
            if l.id == i then updLinkRow sa now l else l) })

/-- `RosterManager.get_student_assignment` (manager.py lines 550-573). -/
def get_student_assignment (student_id assignment_id : Option Nat) (db : DB) :
    Except String (Option StudentAssignment) :=
  match (db.links.filter (pairPred student_id assignment_id)).head? with
  | none => .ok none
  | some row => (linkOfRow row).map some

/-- The JOIN of `get_assignment_students` (manager.py lines 575-656), ordered by
student name. -/
def assignmentStudentRows (assignment_id : Option Nat) (db : DB) :
    List (StudentRow × LinkRow) :=
  sortBy (fun a b => strLt a.1.name b.1.name)
    (db.students.flatMap (fun s =>
      (db.links.filter (fun l => l.student_id == s.id && sqlEqN l.assignment_id assignment_id)).map
        (fun l => (s, l))))

/-- `RosterManager.get_assignment_students`: each joined row is split and both
halves go through the validating constructors. -/
def get_assignment_students (assignment_id : Option Nat) (db : DB) :
    Except String (List (Student × StudentAssignment)) :=
  mapExcept (fun p => do
      let s ← studentOfRow p.1
      let sa ← linkOfRow p.2
      pure (s, sa))
    (assignmentStudentRows assignment_id db)

/-! ## SyncResult (src/classdock/roster/models.py lines 321-359) -/

structure SyncResult where
  sync_type : String
  total_repos : Nat
  linked_count : Nat
  unlinked_count : Nat
  errors : List String
  unlinked_repos : List String
deriving DecidableEq

/-- `SyncResult.add_error`. -/
def SyncResult.add_error (r : SyncResult) (e : String) : SyncResult :=
  { r with errors := r.errors ++ [e] }

/-- `SyncResult.add_linked`. -/
def SyncResult.add_linked (r : SyncResult) : SyncResult :=
  { r with linked_count := r.linked_count + 1 }

/-- `SyncResult.add_unlinked`. -/
def SyncResult.add_unlinked (r : SyncResult) (repo_url : String) : SyncResult :=
  { r with
    unlinked_repos := r.unlinked_repos ++ [repo_url],
    unlinked_count := r.unlinked_count + 1 }

/-- `SyncResult.success_rate` (models.py lines 354-359), with exact rational
division standing for Python float division. -/
def SyncResult.success_rate (r : SyncResult) : Rat :=
  if r.total_repos = 0 then 0
  else ((r.linked_count : Rat) / (r.total_repos : Rat)) * 100

/-! ## The reconciler (src/classdock/roster/sync.py, RosterSynchronizer) -/

/-- A discovered `(repo_name, repo_url, student_identifier)` triple; the
identifier may be None. -/
abbrev Triple := String × String × Option String

/-- The body of one iteration of the repository loop of `sync_repositories`
(sync.py lines 83-137), i.e. the content of the per-item `try`.  An `error`
outcome carries the store as mutated up to the point where the exception was
raised, since the enclosing handler does not roll anything back. -/
def syncItemBody (assignment : Option Assignment) (github_organization : String)
    (t : Triple) (now : Nat) (r : SyncResult) (db : DB) :
    Except (String × DB) (SyncResult × DB) :=
  if strFalsy t.2.2 then
    .ok ((r.add_unlinked t.2.1).add_error
      ("Repository " ++ t.1 ++ " has no student identifier"), db)
  else
    match get_student_by_github t.2.2 (some github_organization) db with
    | .error e => .error (e, db)
    | .ok none => .ok (r.add_unlinked t.2.1, db)
    | .ok (some student) =>
      match assignment with
      | none => .error ("AttributeError: NoneType has no attribute id", db)
      | some a =>
        match get_student_assignment student.id a.id db with
        | .error e => .error (e, db)
        | .ok (some existing_link) =>
          let upd : StudentAssignment :=
            { existing_link with
              repository_url := some t.2.1, repository_name := some t.1,
              acceptance_status := "accepted",
              accepted_at := some (existing_link.accepted_at.getD now),
              last_synced_at := some now }
          match update_student_assignment upd now db with
          | .error e => .error (e, db)
          | .ok (_, db1) => .ok (r.add_linked, db1)
        | .ok none =>
          match link_student_to_assignment student.id a.id (some t.2.1) (some t.1)
              ("accepted") now db with
          | .error e => .error (e, db)
          | .ok (_, db1) =>
            match get_student_assignment student.id a.id db1 with
            | .error e => .error (e, db1)
            | .ok none => .error ("AttributeError: NoneType has no attribute last_synced_at", db1)
            | .ok (some new_link) =>
              match update_student_assignment { new_link with last_synced_at := some now }
                  now db1 with
              | .error e => .error (e, db1)
              | .ok (_, db2) => .ok (r.add_linked, db2)

/-- One iteration of the repository loop including the `except` handler
(sync.py lines 138-140): any per-item exception is converted into a single
`add_error` call and the loop continues. -/
def syncItemStep (assignment : Option Assignment) (github_organization : String)
    (t : Triple) (now : Nat) (acc : SyncResult × DB) : SyncResult × DB :=
  match syncItemBody assignment github_organization t now acc.1 acc.2 with
  | .ok out => out
  | .error (e, db1) => (acc.1.add_error ("Error processing " ++ t.1 ++ ": " ++ e), db1)

/-- The `Assignment(name=..., github_organization=...)` constructor argument of
sync.py line 74, before `__post_init__` validation. -/
def syncAssignmentEntity (assignment_name github_organization : String) : Assignment :=
  { name := assignment_name, github_organization := github_organization,
    id := none, classroom_id := none, classroom_url := none,
    template_repo_url := none, assignment_type := "individual", deadline := none,
    points_available := 100, status := "active", created_at := none,
    updated_at := none }

/-- The get-or-create step of `sync_repositories` (sync.py lines 69-79);
exceptions raised here are outside the per-item `try` and propagate. -/
def resolveAssignment (assignment_name github_organization : String) (now : Nat) (db : DB) :
    Except String (Option Assignment × DB) :=
  match get_assignment_by_name assignment_name db with
  | .error e => .error e
  | .ok (some a) => .ok (some a, db)
  | .ok none =>
    match Assignment.validate (syncAssignmentEntity assignment_name github_organization) with
    | .error e => .error e
    | .ok a =>
      match add_assignment a now db with
      | .error e => .error e
      | .ok (assignment_id, db1) =>
        match get_assignment_by_id assignment_id db1 with
        | .error e => .error e
        | .ok aOpt => .ok (aOpt, db1)

/-- The `SyncResult` constructed at the top of `sync_repositories` (sync.py
line 63). -/
def syncInit (discovered_repos : List Triple) : SyncResult :=
  { sync_type := "repositories", total_repos := discovered_repos.length,
    linked_count := 0, unlinked_count := 0, errors := [], unlinked_repos := [] }

/-- The repository loop of `sync_repositories`. -/
def syncFold (assignment : Option Assignment) (github_organization : String) (now : Nat)
    (discovered_repos : List Triple) (acc : SyncResult × DB) : SyncResult × DB :=
  discovered_repos.foldl
    (fun acc t => syncItemStep assignment github_organization t now acc) acc

/-- `RosterSynchronizer.sync_repositories` (sync.py lines 35-147). -/
def sync_repositories (assignment_name github_organization : String)
    (discovered_repos : List Triple) (now : Nat) (db : DB) :
    Except String (SyncResult × DB) :=
  match resolveAssignment assignment_name github_organization now db with
  | .error e => .error e
  | .ok (assignment, db1) =>
    .ok (syncFold assignment github_organization now discovered_repos
      (syncInit discovered_repos, db1))

/-- The dictionary returned by `get_sync_statistics`; `students_without_repos`
is a plain Python subtraction, hence `Int`. -/
structure SyncStats where
  total_students : Nat
  students_with_repos : Nat
  students_without_repos : Int
  acceptance_rate : Rat
deriving DecidableEq

/-- `RosterSynchronizer.get_sync_statistics` (sync.py lines 239-287). -/
def get_sync_statistics (assignment_name github_organization : String) (db : DB) :
    Except String SyncStats :=
  match get_assignment_by_name assignment_name db with
  | .error e => .error e
  | .ok none =>
    .ok { total_students := 0, students_with_repos := 0,
          students_without_repos := 0, acceptance_rate := 0 }
  | .ok (some assignment) =>
    match list_students (some github_organization) ("active") db with
    | .error e => .error e
    | .ok all_students =>
      match get_assignment_students assignment.id db with
      | .error e => .error e
      | .ok students_with_repos =>
        let total_students := all_students.length
        let with_repos := students_with_repos.length
        .ok { total_students := total_students,
              students_with_repos := with_repos,
              students_without_repos := (total_students : Int) - (with_repos : Int),
              acceptance_rate :=
                if 0 < total_students then
                  ((with_repos : Rat) / (total_students : Rat)) * 100
                else 0 }

/-! ## DatabaseManager.execute_update return dispatch (database.py lines 258-289) -/

/-- `query.strip().upper()` from the dispatch test of `execute_update`. -/
def upperStrip (q : List Char) : List Char :=
  (((q.dropWhile Char.isWhitespace).reverse.dropWhile Char.isWhitespace).reverse).map
    Char.toUpper

/-- `query.strip().upper().startswith("INSERT")`. -/
def isInsertStmt (q : List Char) : Bool := "INSERT".toList.isPrefixOf (upperStrip q)

/-- Statement-kind test for UPDATE, in the same style as the INSERT test. -/
def isUpdateStmt (q : List Char) : Bool := "UPDATE".toList.isPrefixOf (upperStrip q)

/-- Statement-kind test for DELETE, in the same style as the INSERT test. -/
def isDeleteStmt (q : List Char) : Bool := "DELETE".toList.isPrefixOf (upperStrip q)

/-- The return-value dispatch of `DatabaseManager.execute_update` (database.py
lines 282-285), with the cursor outcomes (`lastrowid`, `rowcount`) abstracted
as arguments: the executed statement's last-inserted row id is returned when
the statement text starts with INSERT, the affected-row count otherwise. -/
def execute_update (query : List Char) (lastrowid rowcount : Int) : Int :=
  if isInsertStmt query then lastrowid else rowcount

/-! ## Derived predicates used to state the theorems -/

/-- Rows of `students` on which `Student.from_dict` succeeds. -/
def validStudentRow (r : StudentRow) : Bool :=
  !r.email.isEmpty && !(r.name == "") && !(r.github_organization == "") &&
    validStudentStatus r.status

/-- Rows of `assignments` on which `Assignment.from_dict` succeeds. -/
def validAssignmentRow (r : AssignmentRow) : Bool :=
  !(r.name == "") && !(r.github_organization == "") &&
    validAssignmentType r.assignment_type && validAssignmentStatus r.status

/-- Rows of `student_assignments` on which `StudentAssignment.from_dict`
succeeds. -/
def validLinkRow (r : LinkRow) : Bool :=
  !(r.student_id == 0) && !(r.assignment_id == 0) &&
    validAcceptanceStatus r.acceptance_status

/-- The entity produced by `Student.from_dict` on a valid row. -/
def studentEnt (r : StudentRow) : Student :=
  { email := normEmail r.email, name := r.name,
    github_organization := r.github_organization, id := some r.id,
    github_username := r.github_username, github_id := r.github_id,
    enrolled_date := r.enrolled_date, status := r.status, notes := r.notes,
    created_at := r.created_at, updated_at := r.updated_at }

/-- The entity produced by `Assignment.from_dict` on a valid row. -/
def assignmentEnt (r : AssignmentRow) : Assignment :=
  { name := r.name, github_organization := r.github_organization, id := some r.id,
    classroom_id := r.classroom_id, classroom_url := r.classroom_url,
    template_repo_url := r.template_repo_url, assignment_type := r.assignment_type,
    deadline := r.deadline, points_available := r.points_available, status := r.status,
    created_at := r.created_at, updated_at := r.updated_at }

/-- The entity produced by `StudentAssignment.from_dict` on a valid row. -/
def linkEnt (r : LinkRow) : StudentAssignment :=
  { student_id := r.student_id, assignment_id := r.assignment_id, id := some r.id,
    repository_url := r.repository_url, repository_name := r.repository_name,
    acceptance_status := r.acceptance_status, accepted_at := r.accepted_at,
    last_commit_at := r.last_commit_at, last_synced_at := r.last_synced_at,
    notes := r.notes, created_at := r.created_at, updated_at := r.updated_at }

/-- The `StudentAssignment` written back by the update branch of
`sync_repositories` (sync.py lines 110-118). -/
def syncUpdEntity (lrow : LinkRow) (repo_name repo_url : String) (now : Nat) :
    StudentAssignment :=
  { linkEnt lrow with
    repository_url := some repo_url, repository_name := some repo_name,
    acceptance_status := "accepted",
    accepted_at := some (lrow.accepted_at.getD now),
    last_synced_at := some now }

/-- `(student_id, assignment_id)` keys of the link table. -/
def linkPairs (links : List LinkRow) : List (Nat × Nat) :=
  links.map (fun l => (l.student_id, l.assignment_id))

/-- `(email, organization)` keys of the student table. -/
def studentPairs (students : List StudentRow) : List (List Nat × String) :=
  students.map (fun r => (r.email, r.github_organization))

/-- A link row for the given `(student, assignment)` pair exists. -/
def hasPair (links : List LinkRow) (sid aid : Nat) : Bool :=
  links.any (fun l => l.student_id == sid && l.assignment_id == aid)

/-- Classification of one discovered triple against the student table: `none`
for a falsy identifier, `some none` for no roster match, `some (some row)` for
the matched student row. -/
def tripleHit (students : List StudentRow) (org : String) (t : Triple) :
    Option StudentRow :=
  if strFalsy t.2.2 then none else (ghRows students t.2.2 (some org)).head?

def isHitTriple (students : List StudentRow) (org : String) (t : Triple) : Bool :=
  (tripleHit students org t).isSome

/-- Number of triples of the input that match a roster student. -/
def countHits (students : List StudentRow) (org : String) (repos : List Triple) : Nat :=
  repos.countP (isHitTriple students org)

/-- Link-table keys written by the hit triples of the input. -/
def hitPairs (students : List StudentRow) (org : String) (aid : Nat)
    (repos : List Triple) : List (Nat × Nat) :=
  repos.filterMap (fun t => (tripleHit students org t).map (fun s => (s.id, aid)))

/-- Well-formedness of the student table: every row decodes and carries a
positive AUTOINCREMENT id. -/
def studentsOK (students : List StudentRow) : Prop :=
  ∀ r ∈ students, validStudentRow r = true ∧ r.id ≠ 0

/-- Well-formedness of the assignment table. -/
def assignsWF (assignments : List AssignmentRow) (next : Nat) : Prop :=
  (∀ r ∈ assignments, validAssignmentRow r = true ∧ r.id ≠ 0 ∧ r.id < next) ∧
  (assignments.map AssignmentRow.id).Nodup ∧ 0 < next

/-- Well-formedness of the link table: every row decodes, ids are fresh and
unique, and the composite `UNIQUE(student_id, assignment_id)` holds. -/
def linksWF (links : List LinkRow) (next : Nat) : Prop :=
  (∀ l ∈ links, validLinkRow l = true ∧ l.id < next) ∧
  (links.map LinkRow.id).Nodup ∧ (linkPairs links).Nodup

/-- Well-formedness of a reachable store. -/
def DB.WF (db : DB) : Prop :=
  studentsOK db.students ∧ assignsWF db.assignments db.nextAssignmentId ∧
    linksWF db.links db.nextLinkId

instance (db : DB) : Decidable db.WF := by unfold DB.WF studentsOK assignsWF linksWF; infer_instance

/-! ## Concrete stores and entities used by the witnesses -/

def aliceRow : StudentRow :=
  { id := 1, email := codes "alice@x.edu", name := "Alice",
    github_username := some "alice", github_id := none,
    github_organization := "test-org", enrolled_date := none, status := "active",
    notes := none, created_at := none, updated_at := none }

def carolRow : StudentRow :=
  { id := 2, email := codes "carol@x.edu", name := "Carol",
    github_username := some "carol", github_id := none,
    github_organization := "test-org", enrolled_date := none, status := "active",
    notes := none, created_at := none, updated_at := none }

def daveRow : StudentRow :=
  { id := 3, email := codes "dave@x.edu", name := "Dave",
    github_username := some "dave", github_id := none,
    github_organization := "test-org", enrolled_date := none, status := "active",
    notes := none, created_at := none, updated_at := none }

def hwRow : AssignmentRow :=
  { id := 1, name := "hw", classroom_id := none, classroom_url := none,
    template_repo_url := none, github_organization := "test-org",
    assignment_type := "individual", deadline := none, points_available := 100,
    status := "active", created_at := none, updated_at := none }

/-- A link row whose `acceptance_status` was written through
`link_student_to_assignment`'s unvalidated parameter; `from_dict` raises on it. -/
def bogusLinkRow : LinkRow :=
  { id := 1, student_id := 1, assignment_id := 1, repository_url := none,
    repository_name := none, acceptance_status := "bogus", accepted_at := none,
    last_commit_at := none, last_synced_at := none, notes := none,
    created_at := none, updated_at := none }

def acceptedLinkRow : LinkRow :=
  { id := 1, student_id := 1, assignment_id := 1, repository_url := some "oldurl",
    repository_name := some "oldname", acceptance_status := "accepted",
    accepted_at := some 3, last_commit_at := none, last_synced_at := some 4,
    notes := none, created_at := none, updated_at := none }

def link2Row : LinkRow :=
  { id := 2, student_id := 2, assignment_id := 1, repository_url := some "u2",
    repository_name := some "r2", acceptance_status := "accepted",
    accepted_at := some 2, last_commit_at := none, last_synced_at := some 2,
    notes := none, created_at := none, updated_at := none }

def dbEmpty : DB :=
  { students := [], assignments := [], links := [], nextStudentId := 1,
    nextAssignmentId := 1, nextLinkId := 1 }

/-- Store reachable by `add_student`, `add_assignment`,
`link_student_to_assignment(..., acceptance_status="bogus")`. -/
def dbC1 : DB :=
  { students := [aliceRow], assignments := [hwRow], links := [bogusLinkRow],
    nextStudentId := 2, nextAssignmentId := 2, nextLinkId := 2 }

def dbSync : DB :=
  { students := [aliceRow], assignments := [hwRow], links := [],
    nextStudentId := 2, nextAssignmentId := 2, nextLinkId := 1 }

def dbC3 : DB :=
  { students := [aliceRow], assignments := [hwRow], links := [acceptedLinkRow],
    nextStudentId := 2, nextAssignmentId := 2, nextLinkId := 2 }

def dbC5 : DB :=
  { students := [aliceRow, carolRow, daveRow], assignments := [hwRow],
    links := [acceptedLinkRow, link2Row], nextStudentId := 4,
    nextAssignmentId := 2, nextLinkId := 3 }

def reposW : List Triple :=
  [("hw-alice", "https://github.com/test-org/hw-alice", some "alice")]

def r0W : SyncResult :=
  { sync_type := "repositories", total_repos := 1, linked_count := 0,
    unlinked_count := 0, errors := [], unlinked_repos := [] }

def bobEnt : Student :=
  { email := codes "bob@x.edu", name := "Bob", github_organization := "orgA",
    id := none, github_username := none, github_id := none, enrolled_date := none,
    status := "active", notes := none, created_at := none, updated_at := none }

def bobEntB : Student := { bobEnt with github_organization := "orgB" }

def orphanStudent : Student :=
  { email := codes "zed@x.edu", name := "Zed", github_organization := "test-org",
    id := some 5, github_username := none, github_id := none, enrolled_date := none,
    status := "active", notes := none, created_at := none, updated_at := none }

def orphanAssignment : Assignment :=
  { name := "ghost", github_organization := "test-org", id := some 5,
    classroom_id := none, classroom_url := none, template_repo_url := none,
    assignment_type := "individual", deadline := none, points_available := 100,
    status := "active", created_at := none, updated_at := none }

def orphanLink : StudentAssignment :=
  { student_id := 1, assignment_id := 1, id := some 5, repository_url := none,
    repository_name := none, acceptance_status := "pending", accepted_at := none,
    last_commit_at := none, last_synced_at := none, notes := none,
    created_at := none, updated_at := none }

def srSample : SyncResult :=
  { sync_type := "repositories", total_repos := 4, linked_count := 1,
    unlinked_count := 3, errors := [], unlinked_repos := [] }

/-- Link row created by the first reconcile run on `dbSync` (create branch sets
no `accepted_at`; the follow-up update stamps `last_synced_at`). -/
def run1LinkRow : LinkRow :=
  { id := 1, student_id := 1, assignment_id := 1,
    repository_url := some "https://github.com/test-org/hw-alice",
    repository_name := some "hw-alice", acceptance_status := "accepted",
    accepted_at := none, last_commit_at := none, last_synced_at := some 7,
    notes := none, created_at := some 7, updated_at := some 7 }

def r1W : SyncResult :=
  { sync_type := "repositories", total_repos := 1, linked_count := 1,
    unlinked_count := 0, errors := [], unlinked_repos := [] }

def db1W : DB := { dbSync with links := [run1LinkRow], nextLinkId := 2 }

def db2W : DB := { db1W with links := [{ run1LinkRow with accepted_at := some 7 }] }

def updatedC3Row : LinkRow :=
  { acceptedLinkRow with
    repository_url := some "newurl", repository_name := some "hw-alice",
    last_synced_at := some 9, updated_at := some 9 }

def dbC3' : DB := { dbC3 with links := [updatedC3Row] }

def resC1 : SyncResult :=
  { sync_type := "repositories", total_repos := 1, linked_count := 0,
    unlinked_count := 0,
    errors := ["Error processing r1: acceptance_status must be one of pending, accepted, completed, submitted"],
    unlinked_repos := [] }

/-- The row left by the create branch of `sync_repositories` for one hit
triple: the INSERT of `link_student_to_assignment` followed by the follow-up
`update_student_assignment` that stamps `last_synced_at`. -/
def syncNewLinkRow (sid aid : Nat) (repo_name repo_url : String) (now : Nat) (id : Nat) :
    LinkRow :=
  updLinkRow
    { linkEnt (linkInsertRow sid aid (some repo_url) (some repo_name) "accepted" now id) with
      last_synced_at := some now }
    now (linkInsertRow sid aid (some repo_url) (some repo_name) "accepted" now id)

/-- Row created by `add_student bobEnt 0 dbEmpty`. -/
def bobRow : StudentRow :=
  { id := 1, email := codes "bob@x.edu", name := "Bob", github_username := none,
    github_id := none, github_organization := "orgA", enrolled_date := some 0,
    status := "active", notes := none, created_at := some 0, updated_at := some 0 }

def dbB1 : DB := { dbEmpty with students := [bobRow], nextStudentId := 2 }

def statC5 : SyncStats :=
  { total_students := 3, students_with_repos := 2, students_without_repos := 1,
    acceptance_rate := (((2 : Nat) : Rat) / ((3 : Nat) : Rat)) * 100 }

/-! ## Normalization lemmas -/

theorem lowerChar_idem (n : Nat) : lowerChar (lowerChar n) = lowerChar n := by
  unfold lowerChar
  by_cases h : 65 ≤ n ∧ n ≤ 90
  · rw [if_pos h, if_neg (by omega)]
  · rw [if_neg h, if_neg h]

theorem isSpaceCode_lowerChar (n : Nat) : isSpaceCode (lowerChar n) = isSpaceCode n := by
  unfold lowerChar isSpaceCode
  by_cases h : 65 ≤ n ∧ n ≤ 90
  · rw [if_pos h]
    exact decide_eq_decide.mpr (by omega)
  · rw [if_neg h]

theorem head?_dropWhile_false (p : α → Bool) (l : List α) :
    ∀ x, (l.dropWhile p).head? = some x → p x = false := by
  induction l with
  | nil => intro x hx; simp [List.dropWhile] at hx
  | cons a t ih =>
    intro x hx
    rw [List.dropWhile_cons] at hx
    by_cases h : p a
    · rw [if_pos h] at hx; exact ih x hx
    · rw [if_neg h] at hx
      simp only [List.head?_cons, Option.some.injEq] at hx
      subst hx
      exact Bool.eq_false_iff.mpr h

theorem dropWhile_eq_self_of (p : α → Bool) (l : List α)
    (h : ∀ x, l.head? = some x → p x = false) : l.dropWhile p = l := by
  cases l with
  | nil => rfl
  | cons a t =>
    rw [List.dropWhile_cons, if_neg]
    simp [h a rfl]

theorem dropWhile_dropWhile (p : α → Bool) (l : List α) :
    (l.dropWhile p).dropWhile p = l.dropWhile p :=
  dropWhile_eq_self_of p _ (head?_dropWhile_false p l)

theorem head?_of_isPrefix {l₁ l₂ : List α} (h : l₁ <+: l₂) (x : α)
    (hx : l₁.head? = some x) : l₂.head? = some x := by
  obtain ⟨s, rfl⟩ := h
  cases l₁ with
  | nil => simp at hx
  | cons a t => simpa using hx

theorem pyStrip_isPrefix_dropWhile (l : List Nat) :
    pyStrip l <+: l.dropWhile isSpaceCode := by
  unfold pyStrip
  rw [← List.reverse_suffix, List.reverse_reverse]
  exact List.dropWhile_suffix isSpaceCode

theorem head?_pyStrip_false (l : List Nat) :
    ∀ x, (pyStrip l).head? = some x → isSpaceCode x = false := by
  intro x hx
  exact head?_dropWhile_false isSpaceCode l x
    (head?_of_isPrefix (pyStrip_isPrefix_dropWhile l) x hx)

theorem pyStrip_idem (l : List Nat) : pyStrip (pyStrip l) = pyStrip l := by
  have h1 : (pyStrip l).dropWhile isSpaceCode = pyStrip l :=
    dropWhile_eq_self_of _ _ (head?_pyStrip_false l)
  show (((pyStrip l).dropWhile isSpaceCode).reverse.dropWhile isSpaceCode).reverse = pyStrip l
  rw [h1]
  show ((((l.dropWhile isSpaceCode).reverse.dropWhile isSpaceCode).reverse).reverse.dropWhile
    isSpaceCode).reverse = pyStrip l
  rw [List.reverse_reverse, dropWhile_dropWhile]
  rfl

theorem pyLower_pyStrip (l : List Nat) : pyLower (pyStrip l) = pyStrip (pyLower l) := by
  have hpf : (isSpaceCode ∘ lowerChar) = isSpaceCode := funext isSpaceCode_lowerChar
  have hmd : ∀ y : List Nat,
      (y.dropWhile isSpaceCode).map lowerChar = (y.map lowerChar).dropWhile isSpaceCode :=
    fun y => by rw [List.dropWhile_map, hpf]
  unfold pyLower pyStrip
  rw [List.map_reverse, hmd, List.map_reverse, hmd]

theorem pyLower_idem (l : List Nat) : pyLower (pyLower l) = pyLower l := by
  unfold pyLower
  rw [List.map_map]
  exact List.map_congr_left (fun a _ => lowerChar_idem a)

theorem normEmail_idem (l : List Nat) : normEmail (normEmail l) = normEmail l := by
  unfold normEmail
  rw [pyLower_pyStrip, pyLower_idem, pyStrip_idem]

/-! ## Row decoding on valid rows -/

theorem studentOfRow_valid (r : StudentRow) (h : validStudentRow r = true) :
    studentOfRow r = .ok (studentEnt r) := by
  unfold validStudentRow at h
  simp only [Bool.and_eq_true, Bool.not_eq_true'] at h
  obtain ⟨⟨⟨he, hn⟩, ho⟩, hs⟩ := h
  simp [studentOfRow, Student.validate, he, hn, ho, hs, studentEnt]

theorem assignmentOfRow_valid (r : AssignmentRow) (h : validAssignmentRow r = true) :
    assignmentOfRow r = .ok (assignmentEnt r) := by
  unfold validAssignmentRow at h
  simp only [Bool.and_eq_true, Bool.not_eq_true'] at h
  obtain ⟨⟨⟨hn, ho⟩, ht⟩, hs⟩ := h
  simp [assignmentOfRow, Assignment.validate, hn, ho, ht, hs, assignmentEnt]

theorem linkOfRow_valid (r : LinkRow) (h : validLinkRow r = true) :
    linkOfRow r = .ok (linkEnt r) := by
  unfold validLinkRow at h
  simp only [Bool.and_eq_true, Bool.not_eq_true'] at h
  obtain ⟨⟨hs, ha⟩, hst⟩ := h
  simp [linkOfRow, StudentAssignment.validate, hs, ha, hst, linkEnt]

/-! ## C10 -/

/-- C10: `SyncResult.success_rate` is 0 when `total_repos` is 0 and otherwise
equals `linked_count / total_repos * 100`; the division is guarded by the zero
test, so division by zero is unreachable for every `SyncResult`. -/
theorem C10_theorem (r : SyncResult) :
    (r.total_repos = 0 → r.success_rate = 0) ∧
    (r.total_repos ≠ 0 →
      r.success_rate = ((r.linked_count : Rat) / (r.total_repos : Rat)) * 100) := by
  unfold SyncResult.success_rate
  constructor <;> intro h <;> simp [h]

/-- Witness for C10 at a concrete `SyncResult`. -/
theorem C10_witness :
    srSample.total_repos ≠ 0 ∧
    srSample.success_rate = ((srSample.linked_count : Rat) / (srSample.total_repos : Rat)) * 100 :=
  ⟨by decide, (C10_theorem srSample).2 (by decide)⟩

/-! ## C7 -/

theorem insert_isPrefixOf_false {l : List Char}
    (h : ("UPDATE".toList.isPrefixOf l || "DELETE".toList.isPrefixOf l) = true) :
    "INSERT".toList.isPrefixOf l = false := by
  cases l with
  | nil => simp [List.isPrefixOf] at h
  | cons c cs =>
    simp only [show "UPDATE".toList = 'U' :: "PDATE".toList from rfl,
      show "DELETE".toList = 'D' :: "ELETE".toList from rfl,
      show "INSERT".toList = 'I' :: "NSERT".toList from rfl,
      List.isPrefixOf, Bool.or_eq_true, Bool.and_eq_true, beq_iff_eq] at h ⊢
    rcases h with ⟨hc, _⟩ | ⟨hc, _⟩ <;> subst hc <;> simp

/-- C7: `execute_update` returns the cursor's last-inserted row id exactly when
the trimmed, upper-cased statement starts with INSERT, and returns the
affected-row count when the statement is an UPDATE or a DELETE. -/
theorem C7_theorem (q : List Char) (lastrowid rowcount : Int) :
    (isInsertStmt q = true → execute_update q lastrowid rowcount = lastrowid) ∧
    (isUpdateStmt q = true ∨ isDeleteStmt q = true →
      execute_update q lastrowid rowcount = rowcount) := by
  constructor
  · intro h
    unfold execute_update
    rw [if_pos h]
  · intro h
    unfold execute_update
    rw [if_neg]
    intro hI
    have hf : "INSERT".toList.isPrefixOf (upperStrip q) = false := by
      apply insert_isPrefixOf_false
      unfold isUpdateStmt isDeleteStmt at h
      rcases h with h | h
      · rw [h, Bool.true_or]
      · rw [h, Bool.or_true]
    unfold isInsertStmt at hI
    rw [hI] at hf
    cases hf

/-- Witness for C7 on two concrete statements. -/
theorem C7_witness :
    execute_update ("  insert into students values (?)".toList) 7 3 = 7 ∧
    execute_update ("UPDATE students SET name = ?".toList) 7 3 = 3 ∧
    execute_update ("delete from students".toList) 7 3 = 3 :=
  ⟨(C7_theorem _ 7 3).1 (by decide),
   (C7_theorem _ 7 3).2 (Or.inl (by decide)),
   (C7_theorem _ 7 3).2 (Or.inr (by decide))⟩

/-! ## C4 -/

/-- C4: a discovered triple whose identifier is null or empty is recorded as
unlinked (repo_url appended, unlinked_count incremented), contributes exactly
one error naming the missing identifier, leaves the store untouched for every
store (so no student lookup can have been attempted), and the loop continues
with the remaining triples from that state. -/
theorem C4_theorem (aOpt : Option Assignment) (org rn ru : String) (ident : Option String)
    (now : Nat) (r : SyncResult) (db : DB) (rest : List Triple)
    (h : strFalsy ident = true) :
    syncItemStep aOpt org (rn, ru, ident) now (r, db) =
      ((r.add_unlinked ru).add_error ("Repository " ++ rn ++ " has no student identifier"),
        db) ∧
    ((r.add_unlinked ru).add_error
        ("Repository " ++ rn ++ " has no student identifier")).unlinked_repos =
      r.unlinked_repos ++ [ru] ∧
    ((r.add_unlinked ru).add_error
        ("Repository " ++ rn ++ " has no student identifier")).unlinked_count =
      r.unlinked_count + 1 ∧
    ((r.add_unlinked ru).add_error
        ("Repository " ++ rn ++ " has no student identifier")).errors =
      r.errors ++ [("Repository " ++ rn ++ " has no student identifier")] ∧
    List.foldl (fun acc t => syncItemStep aOpt org t now acc) (r, db)
        ((rn, ru, ident) :: rest) =
      List.foldl (fun acc t => syncItemStep aOpt org t now acc)
        ((r.add_unlinked ru).add_error ("Repository " ++ rn ++ " has no student identifier"),
          db) rest := by
  have hstep : syncItemStep aOpt org (rn, ru, ident) now (r, db) =
      ((r.add_unlinked ru).add_error ("Repository " ++ rn ++ " has no student identifier"),
        db) := by
    unfold syncItemStep syncItemBody
    rw [if_pos h]
  refine ⟨hstep, rfl, rfl, rfl, ?_⟩
  rw [List.foldl_cons, hstep]

/-- Witness for C4: a null identifier on a concrete store with a matching
student present; the store is untouched. -/
theorem C4_witness :
    syncItemStep (some (assignmentEnt hwRow)) "test-org" ("hw", "u9", none) 5 (r0W, dbC1) =
      ((r0W.add_unlinked "u9").add_error ("Repository hw has no student identifier"),
        dbC1) ∧
    ((r0W.add_unlinked "u9").add_error
        ("Repository hw has no student identifier")).unlinked_count =
      r0W.unlinked_count + 1 :=
  ⟨(C4_theorem (some (assignmentEnt hwRow)) "test-org" "hw" "u9" none 5 r0W dbC1 []
      (by decide)).1,
   (C4_theorem (some (assignmentEnt hwRow)) "test-org" "hw" "u9" none 5 r0W dbC1 []
      (by decide)).2.2.1⟩

/-! ## C8 -/

/-- C8: for each of `update_student`, `update_assignment`,
`update_student_assignment`: a null id raises ValueError and this ValueError
arises only then, while a non-null id matching no stored row returns `False`
with the store unchanged. -/
theorem C8_theorem :
    (∀ (s : Student) (now : Nat) (db : DB),
      (s.id = none → update_student s now db = .error ("Student ID is required for update")) ∧
      (∀ i, s.id = some i → (∀ r ∈ db.students, r.id ≠ i) →
        update_student s now db = .ok (false, db)) ∧
      (update_student s now db = .error ("Student ID is required for update") →
        s.id = none)) ∧
    (∀ (a : Assignment) (now : Nat) (db : DB),
      (a.id = none →
        update_assignment a now db = .error ("Assignment ID is required for update")) ∧
      (∀ i, a.id = some i → (∀ r ∈ db.assignments, r.id ≠ i) →
        update_assignment a now db = .ok (false, db)) ∧
      (update_assignment a now db = .error ("Assignment ID is required for update") →
        a.id = none)) ∧
    (∀ (sa : StudentAssignment) (now : Nat) (db : DB),
      (sa.id = none →
        update_student_assignment sa now db =
          .error ("StudentAssignment ID is required for update")) ∧
      (∀ i, sa.id = some i → (∀ l ∈ db.links, l.id ≠ i) →
        update_student_assignment sa now db = .ok (false, db)) ∧
      (update_student_assignment sa now db =
          .error ("StudentAssignment ID is required for update") →
        sa.id = none)) := by
  refine ⟨fun s now db => ⟨?_, ?_, ?_⟩, fun a now db => ⟨?_, ?_, ?_⟩,
    fun sa now db => ⟨?_, ?_, ?_⟩⟩
  · intro h; unfold update_student; rw [h]
  · intro i hi hnone
    unfold update_student
    rw [hi]
    have : db.students.filter (fun r => r.id == i) = [] :=
      List.filter_eq_nil_iff.mpr (fun r hr => by simp [hnone r hr])
    simp [this]
  · intro h
    unfold update_student at h
    split at h
    · rename_i heq
      exact heq
    · exfalso
      split at h
      · exact Except.noConfusion h
      · split at h
        · exact absurd (Except.error.inj h) (by decide)
        · exact Except.noConfusion h
  · intro h; unfold update_assignment; rw [h]
  · intro i hi hnone
    unfold update_assignment
    rw [hi]
    have : db.assignments.filter (fun r => r.id == i) = [] :=
      List.filter_eq_nil_iff.mpr (fun r hr => by simp [hnone r hr])
    simp [this]
  · intro h
    unfold update_assignment at h
    split at h
    · rename_i heq
      exact heq
    · exfalso
      split at h
      · exact Except.noConfusion h
      · split at h
        · exact absurd (Except.error.inj h) (by decide)
        · exact Except.noConfusion h
  · intro h; unfold update_student_assignment; rw [h]
  · intro i hi hnone
    unfold update_student_assignment
    rw [hi]
    have : db.links.filter (fun l => l.id == i) = [] :=
      List.filter_eq_nil_iff.mpr (fun l hl => by simp [hnone l hl])
    simp [this]
  · intro h
    unfold update_student_assignment at h
    split at h
    · rename_i heq
      exact heq
    · exfalso
      split at h
      · exact Except.noConfusion h
      · exact Except.noConfusion h

/-- Witness for C8: ids `some 5` on the empty store return `False` and leave
the store unchanged. -/
theorem C8_witness :
    update_student orphanStudent 0 dbEmpty = .ok (false, dbEmpty) ∧
    update_assignment orphanAssignment 0 dbEmpty = .ok (false, dbEmpty) ∧
    update_student_assignment orphanLink 0 dbEmpty = .ok (false, dbEmpty) :=
  ⟨(C8_theorem.1 orphanStudent 0 dbEmpty).2.1 5 rfl (by simp [dbEmpty]),
   (C8_theorem.2.1 orphanAssignment 0 dbEmpty).2.1 5 rfl (by simp [dbEmpty]),
   (C8_theorem.2.2 orphanLink 0 dbEmpty).2.1 5 rfl (by simp [dbEmpty])⟩

/-! ## C6 -/

/-- C6: after a successful `add_student`, inserting any student with the same
`(email, organization)` pair raises the composite-uniqueness IntegrityError
(the store value is only produced on the ok path, so the failing insert leaves
the store unchanged); the same email under a different organization (fresh in
the store) succeeds with a distinct id; and `add_student` preserves the
invariant that no two stored students share `(email, organization)`. -/
theorem C6_theorem :
    (∀ (s s' : Student) (now now' : Nat) (db : DB) (i : Nat) (db1 : DB),
      add_student s now db = .ok (i, db1) →
      s'.email = s.email → s'.github_organization = s.github_organization →
      add_student s' now' db1 =
        .error ("UNIQUE constraint failed: students.email, students.github_organization")) ∧
    (∀ (s s' : Student) (now now' : Nat) (db : DB) (i : Nat) (db1 : DB),
      add_student s now db = .ok (i, db1) →
      s'.email = s.email → s'.github_organization ≠ s.github_organization →
      db.students.any (fun r => r.email == s'.email &&
        r.github_organization == s'.github_organization) = false →
      (add_student s' now' db1).toOption.map Prod.fst = some (i + 1) ∧ i + 1 ≠ i) ∧
    (∀ (s : Student) (now : Nat) (db : DB) (i : Nat) (db1 : DB),
      (studentPairs db.students).Nodup →
      add_student s now db = .ok (i, db1) →
      (studentPairs db1.students).Nodup) := by
  have hinv : ∀ (s : Student) (now : Nat) (db : DB) (i : Nat) (db1 : DB),
      add_student s now db = .ok (i, db1) →
      db.students.any (fun r => r.email == s.email &&
        r.github_organization == s.github_organization) = false ∧
      i = db.nextStudentId ∧
      db1 = { db with
        students := db.students ++ [studentInsertRow s now db.nextStudentId],
        nextStudentId := db.nextStudentId + 1 } := by
    intro s now db i db1 h
    unfold add_student at h
    split at h
    · exact Except.noConfusion h
    · rename_i hany
      injection h with h'
      injection h' with h1 h2
      exact ⟨Bool.eq_false_iff.mpr hany, h1.symm, h2.symm⟩
  refine ⟨?_, ?_, ?_⟩
  · intro s s' now now' db i db1 h he ho
    obtain ⟨-, -, hdb⟩ := hinv s now db i db1 h
    subst hdb
    unfold add_student
    have hc : ((db.students ++ [studentInsertRow s now db.nextStudentId]).any
        (fun r => r.email == s'.email &&
          r.github_organization == s'.github_organization)) = true := by
      rw [List.any_append]
      have h2 : (([studentInsertRow s now db.nextStudentId] : List StudentRow).any
          (fun r => r.email == s'.email &&
            r.github_organization == s'.github_organization)) = true := by
        simp [studentInsertRow, he, ho]
      rw [h2, Bool.or_true]
    rw [if_pos hc]
  · intro s s' now now' db i db1 h he ho hfresh
    obtain ⟨-, hi, hdb⟩ := hinv s now db i db1 h
    subst hdb
    have hc : ((db.students ++ [studentInsertRow s now db.nextStudentId]).any
        (fun r => r.email == s'.email &&
          r.github_organization == s'.github_organization)) = false := by
      rw [List.any_append, hfresh, Bool.false_or]
      simp only [List.any_cons, List.any_nil, Bool.or_false, studentInsertRow]
      rw [beq_eq_false_iff_ne.mpr (fun hx => ho hx.symm), Bool.and_false]
    constructor
    · unfold add_student
      rw [if_neg (by simp [hc])]
      subst hi
      rfl
    · omega
  · intro s now db i db1 hnd h
    obtain ⟨hfresh, -, hdb⟩ := hinv s now db i db1 h
    subst hdb
    unfold studentPairs at hnd ⊢
    rw [List.map_append, List.nodup_append]
    refine ⟨hnd, List.nodup_singleton _, ?_⟩
    simp only [List.map_cons, List.map_nil, List.disjoint_singleton]
    intro hmem
    rw [List.mem_map] at hmem
    obtain ⟨r, hr, hpair⟩ := hmem
    have hT : (db.students.any (fun r => r.email == s.email &&
        r.github_organization == s.github_organization)) = true := by
      apply List.any_eq_true.mpr
      refine ⟨r, hr, ?_⟩
      have h1 : r.email = (studentInsertRow s now db.nextStudentId).email :=
        congrArg Prod.fst hpair
      have h2 : r.github_organization =
          (studentInsertRow s now db.nextStudentId).github_organization :=
        congrArg Prod.snd hpair
      simp only [studentInsertRow] at h1 h2
      simp [h1, h2]
    rw [hT] at hfresh
    exact Bool.noConfusion hfresh

/-- Witness for C6 at concrete students: duplicate `(email, org)` raises, the
same email under another organization gets the distinct id 2. -/
theorem C6_witness :
    add_student bobEnt 0 dbB1 =
      .error ("UNIQUE constraint failed: students.email, students.github_organization") ∧
    ((add_student bobEntB 0 dbB1).toOption.map Prod.fst = some 2 ∧ 2 ≠ 1) ∧
    (studentPairs dbB1.students).Nodup :=
  ⟨C6_theorem.1 bobEnt bobEnt 0 0 dbEmpty 1 dbB1 (by decide) rfl rfl,
   C6_theorem.2.1 bobEnt bobEntB 0 0 dbEmpty 1 dbB1 (by decide) rfl (by decide) (by decide),
   C6_theorem.2.2 bobEnt 0 dbEmpty 1 dbB1 (by decide) (by decide)⟩

/-! ## C9 -/

/-- C9: `get_student_by_email` normalizes its argument with the same
`lower().strip()` the `Student` constructor applies to stored emails, so the
lookup is invariant under pre-normalizing the argument, and any string that
lowercases-and-trims to a stored student's email finds that student (under the
composite uniqueness invariant of the table). -/
theorem C9_theorem :
    (∀ (e : List Nat) (org : String) (db : DB),
      get_student_by_email e org db = get_student_by_email (normEmail e) org db) ∧
    (∀ (e : List Nat) (org : String) (db : DB) (row : StudentRow),
      row ∈ db.students →
      normEmail e = row.email →
      row.github_organization = org →
      (studentPairs db.students).Nodup →
      validStudentRow row = true →
      get_student_by_email e org db = .ok (some (studentEnt row))) := by
  constructor
  · intro e org db
    unfold get_student_by_email
    rw [normEmail_idem]
  · intro e org db row hmem he ho hnd hvalid
    have hp : (fun r : StudentRow =>
        r.email == normEmail e && r.github_organization == org) row = true := by
      simp [← he, ho]
    have hall : ∀ r' ∈ db.students.filter (fun r =>
        r.email == normEmail e && r.github_organization == org), r' = row := by
      intro r' hr'
      obtain ⟨hr'mem, hr'p⟩ := List.mem_filter.mp hr'
      simp only [Bool.and_eq_true, beq_iff_eq] at hr'p
      apply List.inj_on_of_nodup_map hnd hr'mem hmem
      show (r'.email, r'.github_organization) = (row.email, row.github_organization)
      rw [hr'p.1, hr'p.2, ← he, ho]
    have hne : db.students.filter (fun r =>
        r.email == normEmail e && r.github_organization == org) ≠ [] := by
      intro hnil
      have : row ∈ db.students.filter (fun r =>
          r.email == normEmail e && r.github_organization == org) :=
        List.mem_filter.mpr ⟨hmem, hp⟩
      rw [hnil] at this
      cases this
    have hhead : (db.students.filter (fun r =>
        r.email == normEmail e && r.github_organization == org)).head? = some row := by
      cases hf : db.students.filter (fun r =>
          r.email == normEmail e && r.github_organization == org) with
      | nil => exact absurd hf hne
      | cons a t =>
        have ha : a = row := hall a (hf ▸ List.mem_cons_self a t)
        rw [ha]
        rfl
    unfold get_student_by_email
    simp only [hhead]
    rw [studentOfRow_valid row hvalid]
    rfl

/-- Witness for C9: a padded mixed-case email resolves to the stored student. -/
theorem C9_witness :
    get_student_by_email (codes "  ALICE@x.EDU ") "test-org" dbSync =
      get_student_by_email (normEmail (codes "  ALICE@x.EDU ")) "test-org" dbSync ∧
    get_student_by_email (codes "  ALICE@x.EDU ") "test-org" dbSync =
      .ok (some (studentEnt aliceRow)) :=
  ⟨C9_theorem.1 (codes "  ALICE@x.EDU ") "test-org" dbSync,
   C9_theorem.2 (codes "  ALICE@x.EDU ") "test-org" dbSync aliceRow (by decide) (by decide)
     (by decide) (by decide) (by decide)⟩

/-! ## C5 -/

/-- C5: `get_sync_statistics` computes `acceptance_rate` as
`students_with_repos / total_students * 100` whenever `total_students` is
positive (so 2 linked of 3 total yields a rate within 0.1 of 66.67), returns
rate 0 when `total_students` is 0, and returns the all-zero record whenever no
assignment row carries the requested name. -/
theorem C5_theorem :
    (∀ (name org : String) (db : DB) (st : SyncStats),
      get_sync_statistics name org db = .ok st →
      (st.total_students = 0 → st.acceptance_rate = 0) ∧
      (0 < st.total_students →
        st.acceptance_rate =
          ((st.students_with_repos : Rat) / (st.total_students : Rat)) * 100)) ∧
    (∀ (name org : String) (db : DB) (st : SyncStats),
      get_sync_statistics name org db = .ok st →
      st.total_students = 3 → st.students_with_repos = 2 →
      |st.acceptance_rate - 6667 / 100| ≤ 1 / 10) ∧
    (∀ (name org : String) (db : DB),
      db.assignments.filter (fun r => r.name == name) = [] →
      get_sync_statistics name org db =
        .ok { total_students := 0, students_with_repos := 0,
              students_without_repos := 0, acceptance_rate := 0 }) := by
  have hmain : ∀ (name org : String) (db : DB) (st : SyncStats),
      get_sync_statistics name org db = .ok st →
      (st.total_students = 0 → st.acceptance_rate = 0) ∧
      (0 < st.total_students →
        st.acceptance_rate =
          ((st.students_with_repos : Rat) / (st.total_students : Rat)) * 100) := by
    intro name org db st h
    unfold get_sync_statistics at h
    split at h
    · exact Except.noConfusion h
    · injection h with h'
      subst h'
      exact ⟨fun _ => rfl, fun hpos => absurd hpos (by simp)⟩
    · split at h
      · exact Except.noConfusion h
      · split at h
        · exact Except.noConfusion h
        · injection h with h'
          subst h'
          constructor
          · intro h0
            simp only at h0 ⊢
            rw [if_neg (by omega)]
          · intro hpos
            simp only at hpos ⊢
            rw [if_pos hpos]
  refine ⟨hmain, ?_, ?_⟩
  · intro name org db st h h3 h2
    have hrate := (hmain name org db st h).2 (by omega)
    rw [hrate, h3, h2]
    rw [abs_le]
    constructor <;> norm_num
  · intro name org db hfil
    have hgan : get_assignment_by_name name db = .ok none := by
      unfold get_assignment_by_name
      rw [hfil]
      rfl
    unfold get_sync_statistics
    simp only [hgan]

/-- Witness for C5: 2 of 3 students linked gives rate 2/3·100, within 0.1 of
66.67; a missing assignment gives the all-zero record. -/
theorem C5_witness :
    get_sync_statistics "hw" "test-org" dbC5 = .ok statC5 ∧
    statC5.acceptance_rate =
      ((statC5.students_with_repos : Rat) / (statC5.total_students : Rat)) * 100 ∧
    |statC5.acceptance_rate - 6667 / 100| ≤ 1 / 10 ∧
    get_sync_statistics "nope" "test-org" dbC5 =
      .ok { total_students := 0, students_with_repos := 0,
            students_without_repos := 0, acceptance_rate := 0 } :=
  ⟨rfl,
   (C5_theorem.1 "hw" "test-org" dbC5 statC5 rfl).2 (by decide),
   C5_theorem.2.1 "hw" "test-org" dbC5 statC5 rfl rfl rfl,
   C5_theorem.2.2 "nope" "test-org" dbC5 (by decide)⟩

/-! ## Per-item step lemmas for the reconciler -/

theorem ghRows_head_mem {students : List StudentRow} {u o : Option String}
    {row : StudentRow} (h : (ghRows students u o).head? = some row) : row ∈ students := by
  have hmem : row ∈ ghRows students u o :=
    List.mem_of_mem_head? (by rw [h]; rfl)
  unfold ghRows at hmem
  split at hmem
  · exact (List.mem_filter.mp hmem).1
  · exact (List.mem_filter.mp hmem).1

theorem syncStep_falsy (aOpt : Option Assignment) (org : String) (t : Triple) (now : Nat)
    (r : SyncResult) (db : DB) (h : strFalsy t.2.2 = true) :
    syncItemStep aOpt org t now (r, db) =
      ((r.add_unlinked t.2.1).add_error ("Repository " ++ t.1 ++ " has no student identifier"),
        db) := by
  unfold syncItemStep syncItemBody
  rw [if_pos h]

theorem syncStep_miss (aOpt : Option Assignment) (org : String) (t : Triple) (now : Nat)
    (r : SyncResult) (db : DB) (h1 : strFalsy t.2.2 = false)
    (h2 : (ghRows db.students t.2.2 (some org)).head? = none) :
    syncItemStep aOpt org t now (r, db) = (r.add_unlinked t.2.1, db) := by
  have hg : get_student_by_github t.2.2 (some org) db = .ok none := by
    unfold get_student_by_github
    rw [h2]
  unfold syncItemStep syncItemBody
  rw [if_neg (by simp [h1])]
  simp only [hg]

theorem update_sa_by_id (sa : StudentAssignment) (now : Nat) (db : DB) (i : Nat)
    (hsa : sa.id = some i)
    (hne : db.links.filter (fun l => l.id == i) ≠ []) :
    update_student_assignment sa now db =
      .ok (true, { db with links := db.links.map (fun l =>
        if l.id == i then updLinkRow sa now l else l) }) := by
  unfold update_student_assignment
  split
  · rename_i heq
    rw [hsa] at heq
    cases heq
  · rename_i j heq
    rw [hsa] at heq
    injection heq with heq'
    subst heq'
    rw [if_neg (by rw [List.isEmpty_iff]; exact hne)]

theorem syncStep_hit_update (a : Assignment) (aid : Nat) (org : String) (t : Triple)
    (now : Nat) (r : SyncResult) (db : DB) (srow : StudentRow) (lrow : LinkRow)
    (ha : a.id = some aid)
    (h1 : strFalsy t.2.2 = false)
    (h2 : (ghRows db.students t.2.2 (some org)).head? = some srow)
    (h3 : validStudentRow srow = true)
    (h4 : (db.links.filter (pairPred (some srow.id) (some aid))).head? = some lrow)
    (h5 : validLinkRow lrow = true) :
    syncItemStep (some a) org t now (r, db) =
      (r.add_linked,
       { db with links := db.links.map (fun l =>
           if l.id == lrow.id then updLinkRow (syncUpdEntity lrow t.1 t.2.1 now) now l
           else l) }) := by
  have hg : get_student_by_github t.2.2 (some org) db = .ok (some (studentEnt srow)) := by
    unfold get_student_by_github
    rw [h2]
    show Except.map some (studentOfRow srow) = _
    rw [studentOfRow_valid srow h3]
    rfl
  have hgsa : get_student_assignment (some srow.id) (some aid) db =
      .ok (some (linkEnt lrow)) := by
    unfold get_student_assignment
    rw [h4]
    show Except.map some (linkOfRow lrow) = _
    rw [linkOfRow_valid lrow h5]
    rfl
  have hlmem : lrow ∈ db.links := (List.mem_filter.mp (List.mem_of_mem_head? h4)).1
  have hne : db.links.filter (fun l => l.id == lrow.id) ≠ [] := by
    intro hnil
    have : lrow ∈ db.links.filter (fun l => l.id == lrow.id) :=
      List.mem_filter.mpr ⟨hlmem, by simp⟩
    rw [hnil] at this
    cases this
  have hupd := update_sa_by_id (syncUpdEntity lrow t.1 t.2.1 now) now db lrow.id rfl hne
  unfold syncItemStep syncItemBody
  rw [if_neg (by simp [h1])]
  simp only [hg, ha, studentEnt, hgsa, linkEnt, syncUpdEntity] at hupd ⊢
  rw [hupd]

theorem syncNewLinkRow_eq (sid aid : Nat) (rn ru : String) (now id : Nat) :
    syncNewLinkRow sid aid rn ru now id =
      { id := id, student_id := sid, assignment_id := aid, repository_url := some ru,
        repository_name := some rn, acceptance_status := "accepted", accepted_at := none,
        last_commit_at := none, last_synced_at := some now, notes := none,
        created_at := some now, updated_at := some now } := rfl

theorem syncStep_hit_create (a : Assignment) (aid : Nat) (org : String) (t : Triple)
    (now : Nat) (r : SyncResult) (db : DB) (srow : StudentRow)
    (ha : a.id = some aid)
    (h1 : strFalsy t.2.2 = false)
    (h2 : (ghRows db.students t.2.2 (some org)).head? = some srow)
    (h3 : validStudentRow srow = true)
    (h4 : db.links.filter (pairPred (some srow.id) (some aid)) = [])
    (hfresh : ∀ l ∈ db.links, l.id ≠ db.nextLinkId)
    (hsid : srow.id ≠ 0) (haid : aid ≠ 0) :
    syncItemStep (some a) org t now (r, db) =
      (r.add_linked,
       { db with
         links := db.links ++ [syncNewLinkRow srow.id aid t.1 t.2.1 now db.nextLinkId],
         nextLinkId := db.nextLinkId + 1 }) := by
  have hg : get_student_by_github t.2.2 (some org) db = .ok (some (studentEnt srow)) := by
    unfold get_student_by_github
    rw [h2]
    show Except.map some (studentOfRow srow) = _
    rw [studentOfRow_valid srow h3]
    rfl
  have hgsa0 : get_student_assignment (some srow.id) (some aid) db = .ok none := by
    unfold get_student_assignment
    rw [h4]
    rfl
  have hany : db.links.any (fun l => l.student_id == srow.id && l.assignment_id == aid)
      = false :=
    List.any_eq_false.mpr (fun x hx => List.filter_eq_nil_iff.mp h4 x hx)
  have hins : link_student_to_assignment (some srow.id) (some aid) (some t.2.1) (some t.1)
      ("accepted") now db =
      .ok (db.nextLinkId,
        { db with
          links := db.links ++
            [linkInsertRow srow.id aid (some t.2.1) (some t.1) "accepted" now db.nextLinkId],
          nextLinkId := db.nextLinkId + 1 }) := by
    unfold link_student_to_assignment
    show (if (db.links.any fun l => l.student_id == srow.id && l.assignment_id == aid) = true
      then _ else _) = _
    rw [if_neg (by simp [hany])]
  have hvR0 : validLinkRow
      (linkInsertRow srow.id aid (some t.2.1) (some t.1) "accepted" now db.nextLinkId)
      = true := by
    simp [validLinkRow, linkInsertRow, validAcceptanceStatus, hsid, haid]
  have hgsa1 : get_student_assignment (some srow.id) (some aid)
      { db with
        links := db.links ++
          [linkInsertRow srow.id aid (some t.2.1) (some t.1) "accepted" now db.nextLinkId],
        nextLinkId := db.nextLinkId + 1 } =
      .ok (some (linkEnt
        (linkInsertRow srow.id aid (some t.2.1) (some t.1) "accepted" now db.nextLinkId))) := by
    unfold get_student_assignment
    simp only [List.filter_append, h4, List.nil_append]
    rw [show List.filter (pairPred (some srow.id) (some aid))
        [linkInsertRow srow.id aid (some t.2.1) (some t.1) "accepted" now db.nextLinkId] =
        [linkInsertRow srow.id aid (some t.2.1) (some t.1) "accepted" now db.nextLinkId] from by
      simp [pairPred, sqlEqN, linkInsertRow]]
    show Except.map some (linkOfRow _) = _
    rw [linkOfRow_valid _ hvR0]
    rfl
  have hne2 : (db.links ++
      [linkInsertRow srow.id aid (some t.2.1) (some t.1) "accepted" now db.nextLinkId]).filter
      (fun l => l.id == db.nextLinkId) ≠ [] := by
    rw [List.filter_append]
    intro hnil
    have h2nil := (List.append_eq_nil.mp hnil).2
    rw [show List.filter (fun l => l.id == db.nextLinkId)
        [linkInsertRow srow.id aid (some t.2.1) (some t.1) "accepted" now db.nextLinkId] =
        [linkInsertRow srow.id aid (some t.2.1) (some t.1) "accepted" now db.nextLinkId] from by
      simp [linkInsertRow]] at h2nil
    cases h2nil
  have hupd2 := update_sa_by_id
    { linkEnt (linkInsertRow srow.id aid (some t.2.1) (some t.1) "accepted" now db.nextLinkId)
      with last_synced_at := some now } now
    { db with
      links := db.links ++
        [linkInsertRow srow.id aid (some t.2.1) (some t.1) "accepted" now db.nextLinkId],
      nextLinkId := db.nextLinkId + 1 }
    db.nextLinkId rfl hne2
  have hmap : (db.links ++
      [linkInsertRow srow.id aid (some t.2.1) (some t.1) "accepted" now db.nextLinkId]).map
      (fun l => if l.id == db.nextLinkId then
        updLinkRow
          { linkEnt (linkInsertRow srow.id aid (some t.2.1) (some t.1) "accepted" now
              db.nextLinkId) with last_synced_at := some now } now l
        else l) =
      db.links ++ [syncNewLinkRow srow.id aid t.1 t.2.1 now db.nextLinkId] := by
    rw [List.map_append]
    have hold : db.links.map (fun l => if l.id == db.nextLinkId then
        updLinkRow
          { linkEnt (linkInsertRow srow.id aid (some t.2.1) (some t.1) "accepted" now
              db.nextLinkId) with last_synced_at := some now } now l
        else l) = db.links := by
      have hcong : ∀ l ∈ db.links, (if l.id == db.nextLinkId then
          updLinkRow
            { linkEnt (linkInsertRow srow.id aid (some t.2.1) (some t.1) "accepted" now
                db.nextLinkId) with last_synced_at := some now } now l
          else l) = id l := by
        intro l hl
        simp [beq_eq_false_iff_ne.mpr (hfresh l hl)]
      rw [List.map_congr_left hcong, List.map_id]
    rw [hold]
    simp [linkInsertRow, syncNewLinkRow]
  rw [hmap] at hupd2
  simp only [studentEnt, linkEnt, linkInsertRow, updLinkRow, syncNewLinkRow]
    at hg hgsa0 hins hgsa1 hupd2
  unfold syncItemStep syncItemBody
  rw [if_neg (by simp [h1])]
  simp only [hg, ha, hgsa0, hins, hgsa1, hupd2, studentEnt, linkEnt, linkInsertRow,
    updLinkRow, syncNewLinkRow]

/-! ## Link-table invariant lemmas -/

theorem any_congr_mem (l : List α) (p q : α → Bool) (h : ∀ a ∈ l, p a = q a) :
    l.any p = l.any q := by
  induction l with
  | nil => rfl
  | cons a t ih =>
    simp only [List.any_cons]
    rw [h a (List.mem_cons_self a t), ih (fun b hb => h b (List.mem_cons_of_mem a hb))]

theorem updLinkRow_id (sa : StudentAssignment) (now : Nat) (l : LinkRow) :
    (updLinkRow sa now l).id = l.id := rfl

theorem updMap_id (sa : StudentAssignment) (now : Nat) (i : Nat) (l : LinkRow) :
    (if l.id == i then updLinkRow sa now l else l).id = l.id := by
  split <;> rfl

theorem updMap_sid (sa : StudentAssignment) (now : Nat) (i : Nat) (l : LinkRow) :
    (if l.id == i then updLinkRow sa now l else l).student_id = l.student_id := by
  split <;> rfl

theorem updMap_aid (sa : StudentAssignment) (now : Nat) (i : Nat) (l : LinkRow) :
    (if l.id == i then updLinkRow sa now l else l).assignment_id = l.assignment_id := by
  split <;> rfl

theorem linksWF_map_upd (links : List LinkRow) (next : Nat) (sa : StudentAssignment)
    (now : Nat) (i : Nat)
    (hval : validAcceptanceStatus sa.acceptance_status = true)
    (h : linksWF links next) :
    linksWF (links.map (fun l => if l.id == i then updLinkRow sa now l else l)) next := by
  obtain ⟨hv, hids, hpairs⟩ := h
  refine ⟨?_, ?_, ?_⟩
  · intro l2 hl2
    rw [List.mem_map] at hl2
    obtain ⟨l, hl, rfl⟩ := hl2
    obtain ⟨hvl, hbound⟩ := hv l hl
    constructor
    · by_cases hb : (l.id == i) = true
      · rw [if_pos hb]
        unfold validLinkRow at hvl ⊢
        simp only [updLinkRow, Bool.and_eq_true] at hvl ⊢
        exact ⟨⟨hvl.1.1, hvl.1.2⟩, hval⟩
      · rw [if_neg hb]
        exact hvl
    · rw [updMap_id]
      exact hbound
  · rw [List.map_map]
    have hc : ∀ l ∈ links,
        (LinkRow.id ∘ fun l => if l.id == i then updLinkRow sa now l else l) l =
          LinkRow.id l :=
      fun l _ => updMap_id sa now i l
    rw [List.map_congr_left hc]
    exact hids
  · unfold linkPairs at hpairs ⊢
    rw [List.map_map]
    have hc : ∀ l ∈ links,
        ((fun x : LinkRow => (x.student_id, x.assignment_id)) ∘
          fun l => if l.id == i then updLinkRow sa now l else l) l =
        (fun x : LinkRow => (x.student_id, x.assignment_id)) l := by
      intro l _
      show ((if l.id == i then updLinkRow sa now l else l).student_id,
        (if l.id == i then updLinkRow sa now l else l).assignment_id) =
        (l.student_id, l.assignment_id)
      rw [updMap_sid, updMap_aid]
    rw [List.map_congr_left hc]
    exact hpairs

theorem hasPair_map_upd (links : List LinkRow) (sa : StudentAssignment) (now : Nat)
    (i sid aid : Nat) :
    hasPair (links.map (fun l => if l.id == i then updLinkRow sa now l else l)) sid aid =
      hasPair links sid aid := by
  unfold hasPair
  rw [List.any_map]
  apply any_congr_mem
  intro l _
  show ((if l.id == i then updLinkRow sa now l else l).student_id == sid &&
    (if l.id == i then updLinkRow sa now l else l).assignment_id == aid) =
    (l.student_id == sid && l.assignment_id == aid)
  rw [updMap_sid, updMap_aid]

theorem linksWF_append_new (links : List LinkRow) (next : Nat) (new : LinkRow)
    (h : linksWF links next) (hval : validLinkRow new = true) (hid : new.id = next)
    (hp : hasPair links new.student_id new.assignment_id = false) :
    linksWF (links ++ [new]) (next + 1) := by
  obtain ⟨hv, hids, hpairs⟩ := h
  refine ⟨?_, ?_, ?_⟩
  · intro l hl
    rcases List.mem_append.mp hl with hl | hl
    · exact ⟨(hv l hl).1, Nat.lt_succ_of_lt (hv l hl).2⟩
    · rw [List.mem_singleton] at hl
      subst hl
      exact ⟨hval, by rw [hid]; exact Nat.lt_succ_self _⟩
  · rw [List.map_append, List.nodup_append]
    refine ⟨hids, by simp, ?_⟩
    simp only [List.map_cons, List.map_nil, List.disjoint_singleton]
    intro hmem
    rw [List.mem_map] at hmem
    obtain ⟨l, hl, hidl⟩ := hmem
    have hlt := (hv l hl).2
    rw [hidl, hid] at hlt
    exact absurd hlt (Nat.lt_irrefl _)
  · unfold linkPairs at hpairs ⊢
    rw [List.map_append, List.nodup_append]
    refine ⟨hpairs, by simp, ?_⟩
    simp only [List.map_cons, List.map_nil, List.disjoint_singleton]
    intro hmem
    rw [List.mem_map] at hmem
    obtain ⟨l, hl, hpl⟩ := hmem
    have h1 : l.student_id = new.student_id := congrArg Prod.fst hpl
    have h2 : l.assignment_id = new.assignment_id := congrArg Prod.snd hpl
    have : hasPair links new.student_id new.assignment_id = true :=
      List.any_eq_true.mpr ⟨l, hl, by simp [h1, h2]⟩
    rw [this] at hp
    cases hp

theorem hasPair_append_single (links : List LinkRow) (new : LinkRow) (sid aid : Nat) :
    hasPair (links ++ [new]) sid aid =
      (hasPair links sid aid || (new.student_id == sid && new.assignment_id == aid)) := by
  unfold hasPair
  rw [List.any_append]
  simp [List.any_cons]

theorem hasPair_head (links : List LinkRow) (sid aid : Nat)
    (h : hasPair links sid aid = true) :
    ∃ lrow, (links.filter (pairPred (some sid) (some aid))).head? = some lrow ∧
      lrow ∈ links ∧ lrow.student_id = sid ∧ lrow.assignment_id = aid := by
  have hne : links.filter (pairPred (some sid) (some aid)) ≠ [] := by
    intro hnil
    obtain ⟨x, hx, hpx⟩ := List.any_eq_true.mp h
    have hmem : x ∈ links.filter (pairPred (some sid) (some aid)) :=
      List.mem_filter.mpr ⟨hx, hpx⟩
    rw [hnil] at hmem
    cases hmem
  cases hf : links.filter (pairPred (some sid) (some aid)) with
  | nil => exact absurd hf hne
  | cons a tl =>
    have ham : a ∈ links.filter (pairPred (some sid) (some aid)) :=
      hf ▸ List.mem_cons_self a tl
    have hsplit := List.mem_filter.mp ham
    have hpa : (a.student_id == sid && a.assignment_id == aid) = true := hsplit.2
    simp only [Bool.and_eq_true, beq_iff_eq] at hpa
    exact ⟨a, by simp [hf], hsplit.1, hpa.1, hpa.2⟩

theorem hasPair_false_filter_nil (links : List LinkRow) (sid aid : Nat)
    (h : hasPair links sid aid = false) :
    links.filter (pairPred (some sid) (some aid)) = [] := by
  apply List.filter_eq_nil_iff.mpr
  intro a ha
  have := List.any_eq_false.mp h a ha
  exact this

theorem linkRow_eq_of_id (links : List LinkRow) (hids : (links.map LinkRow.id).Nodup)
    {l1 l2 : LinkRow} (h1 : l1 ∈ links) (h2 : l2 ∈ links) (h : l1.id = l2.id) : l1 = l2 :=
  List.inj_on_of_nodup_map hids h1 h2 h

/-! ## The loop invariant of the reconciler -/

theorem sync_fold_spec (a : Assignment) (aid : Nat) (ha : a.id = some aid) (hanz : aid ≠ 0)
    (org : String) (now : Nat) :
    ∀ (repos : List Triple) (r : SyncResult) (db : DB),
      studentsOK db.students → linksWF db.links db.nextLinkId →
      (syncFold (some a) org now repos (r, db)).2.students = db.students ∧
      (syncFold (some a) org now repos (r, db)).2.assignments = db.assignments ∧
      (syncFold (some a) org now repos (r, db)).2.nextStudentId = db.nextStudentId ∧
      (syncFold (some a) org now repos (r, db)).2.nextAssignmentId = db.nextAssignmentId ∧
      linksWF (syncFold (some a) org now repos (r, db)).2.links
        (syncFold (some a) org now repos (r, db)).2.nextLinkId ∧
      (syncFold (some a) org now repos (r, db)).1.linked_count =
        r.linked_count + countHits db.students org repos ∧
      (∀ p : Nat × Nat,
        hasPair (syncFold (some a) org now repos (r, db)).2.links p.1 p.2 = true ↔
          (hasPair db.links p.1 p.2 = true ∨ p ∈ hitPairs db.students org aid repos)) ∧
      (∀ l ∈ db.links, ∀ T, l.accepted_at = some T →
        ∀ l2 ∈ (syncFold (some a) org now repos (r, db)).2.links, l2.id = l.id →
          l2.accepted_at = some T) ∧
      (syncFold (some a) org now repos (r, db)).1.sync_type = r.sync_type ∧
      (syncFold (some a) org now repos (r, db)).1.total_repos = r.total_repos := by
  intro repos
  induction repos with
  | nil =>
    intro r db hstu hlnk
    refine ⟨rfl, rfl, rfl, rfl, hlnk, ?_, ?_, ?_, rfl, rfl⟩
    · simp [countHits, syncFold]
    · intro p
      simp [hitPairs, syncFold]
    · intro l hl T hT l2 hl2 hid
      have : l2 = l := linkRow_eq_of_id db.links hlnk.2.1 hl2 hl hid
      rw [this]
      exact hT
  | cons t ts ih =>
    intro r db hstu hlnk
    by_cases hb : strFalsy t.2.2 = true
    · -- null/empty identifier: unlinked + one error, store untouched
      have hstep := syncStep_falsy (some a) org t now r db hb
      have hfold : syncFold (some a) org now (t :: ts) (r, db) =
          syncFold (some a) org now ts
            ((r.add_unlinked t.2.1).add_error
              ("Repository " ++ t.1 ++ " has no student identifier"), db) := by
        unfold syncFold
        rw [List.foldl_cons, hstep]
      have hht : tripleHit db.students org t = none := by simp [tripleHit, hb]
      have hcnt : countHits db.students org (t :: ts) = countHits db.students org ts := by
        unfold countHits
        rw [List.countP_cons]
        simp [isHitTriple, hht]
      have hhp : hitPairs db.students org aid (t :: ts) =
          hitPairs db.students org aid ts := by
        unfold hitPairs
        simp [List.filterMap_cons, hht]
      obtain ⟨e1, e2, e3, e4, e5, e6, e7, e8, e9, e10⟩ :=
        ih ((r.add_unlinked t.2.1).add_error
          ("Repository " ++ t.1 ++ " has no student identifier")) db hstu hlnk
      rw [hfold, hcnt] at *
      exact ⟨e1, e2, e3, e4, e5, e6, fun p => by rw [e7 p, hhp], e8, e9, e10⟩
    · have hb' : strFalsy t.2.2 = false := Bool.eq_false_iff.mpr hb
      cases hh : (ghRows db.students t.2.2 (some org)).head? with
      | none =>
        -- identifier matches no roster student: unlinked, no error
        have hstep := syncStep_miss (some a) org t now r db hb' hh
        have hfold : syncFold (some a) org now (t :: ts) (r, db) =
            syncFold (some a) org now ts (r.add_unlinked t.2.1, db) := by
          unfold syncFold
          rw [List.foldl_cons, hstep]
        have hht : tripleHit db.students org t = none := by simp [tripleHit, hb', hh]
        have hcnt : countHits db.students org (t :: ts) = countHits db.students org ts := by
          unfold countHits
          rw [List.countP_cons]
          simp [isHitTriple, hht]
        have hhp : hitPairs db.students org aid (t :: ts) =
            hitPairs db.students org aid ts := by
          unfold hitPairs
          simp [List.filterMap_cons, hht]
        obtain ⟨e1, e2, e3, e4, e5, e6, e7, e8, e9, e10⟩ :=
          ih (r.add_unlinked t.2.1) db hstu hlnk
        rw [hfold, hcnt] at *
        exact ⟨e1, e2, e3, e4, e5, e6, fun p => by rw [e7 p, hhp], e8, e9, e10⟩
      | some srow =>
        have hmem : srow ∈ db.students := ghRows_head_mem hh
        obtain ⟨hvalid, hidnz⟩ := hstu srow hmem
        have hht : tripleHit db.students org t = some srow := by
          simp [tripleHit, hb', hh]
        have hcnt : countHits db.students org (t :: ts) =
            countHits db.students org ts + 1 := by
          unfold countHits
          rw [List.countP_cons]
          simp [isHitTriple, hht]
        have hhp : hitPairs db.students org aid (t :: ts) =
            (srow.id, aid) :: hitPairs db.students org aid ts := by
          unfold hitPairs
          simp [List.filterMap_cons, hht]
        by_cases hp : hasPair db.links srow.id aid = true
        · -- link already present: update branch
          obtain ⟨lrow, hl4, hlmem, hlsid, hlaid⟩ := hasPair_head db.links srow.id aid hp
          have hlval := (hlnk.1 lrow hlmem).1
          have hstep := syncStep_hit_update a aid org t now r db srow lrow ha hb' hh hvalid
            hl4 hlval
          have hfold : syncFold (some a) org now (t :: ts) (r, db) =
              syncFold (some a) org now ts
                (r.add_linked,
                 { db with links := db.links.map (fun l =>
                     if l.id == lrow.id then
                       updLinkRow (syncUpdEntity lrow t.1 t.2.1 now) now l
                     else l) }) := by
            unfold syncFold
            rw [List.foldl_cons, hstep]
          have hWFU : linksWF
              ({ db with links := db.links.map (fun l =>
                  if l.id == lrow.id then
                    updLinkRow (syncUpdEntity lrow t.1 t.2.1 now) now l
                  else l) } : DB).links
              ({ db with links := db.links.map (fun l =>
                  if l.id == lrow.id then
                    updLinkRow (syncUpdEntity lrow t.1 t.2.1 now) now l
                  else l) } : DB).nextLinkId :=
            linksWF_map_upd db.links db.nextLinkId (syncUpdEntity lrow t.1 t.2.1 now) now
              lrow.id (by rfl) hlnk
          obtain ⟨e1, e2, e3, e4, e5, e6, e7, e8, e9, e10⟩ :=
            ih r.add_linked
              { db with links := db.links.map (fun l =>
                  if l.id == lrow.id then
                    updLinkRow (syncUpdEntity lrow t.1 t.2.1 now) now l
                  else l) }
              hstu hWFU
          rw [hfold]
          refine ⟨e1, e2, e3, e4, e5, ?_, ?_, ?_, e9, e10⟩
          · rw [e6]
            show r.linked_count + 1 + countHits db.students org ts =
              r.linked_count + countHits db.students org (t :: ts)
            rw [hcnt]
            omega
          · intro p
            rw [e7 p]
            have hPU : hasPair
                (db.links.map (fun l =>
                  if l.id == lrow.id then
                    updLinkRow (syncUpdEntity lrow t.1 t.2.1 now) now l
                  else l)) p.1 p.2 = hasPair db.links p.1 p.2 :=
              hasPair_map_upd db.links (syncUpdEntity lrow t.1 t.2.1 now) now lrow.id p.1 p.2
            rw [show (hasPair
                (db.links.map (fun l =>
                  if l.id == lrow.id then
                    updLinkRow (syncUpdEntity lrow t.1 t.2.1 now) now l
                  else l)) p.1 p.2 = true) = (hasPair db.links p.1 p.2 = true) from by
              rw [hPU], hhp]
            constructor
            · rintro (h | h)
              · exact Or.inl h
              · exact Or.inr (List.mem_cons_of_mem _ h)
            · rintro (h | h)
              · exact Or.inl h
              · rcases List.mem_cons.mp h with h | h
                · subst h
                  exact Or.inl hp
                · exact Or.inr h
          · intro l hl T hT l2 hl2 hid2
            have hgl : (if l.id == lrow.id then
                updLinkRow (syncUpdEntity lrow t.1 t.2.1 now) now l else l) ∈
                db.links.map (fun l =>
                  if l.id == lrow.id then
                    updLinkRow (syncUpdEntity lrow t.1 t.2.1 now) now l
                  else l) :=
              List.mem_map_of_mem _ hl
            have hglacc : (if l.id == lrow.id then
                updLinkRow (syncUpdEntity lrow t.1 t.2.1 now) now l else l).accepted_at =
                some T := by
              by_cases hbe : (l.id == lrow.id) = true
              · rw [if_pos hbe]
                have hle : l = lrow :=
                  linkRow_eq_of_id db.links hlnk.2.1 hl hlmem (beq_iff_eq.mp hbe)
                subst hle
                show (syncUpdEntity l t.1 t.2.1 now).accepted_at = some T
                unfold syncUpdEntity
                simp only [linkEnt]
                rw [hT]
                rfl
              · rw [if_neg hbe]
                exact hT
            exact e8 _ hgl T hglacc l2 hl2
              (by rw [hid2, (updMap_id (syncUpdEntity lrow t.1 t.2.1 now) now lrow.id l)])
        · -- no existing link: create branch
          have hp' : hasPair db.links srow.id aid = false := Bool.eq_false_iff.mpr hp
          have hfil := hasPair_false_filter_nil db.links srow.id aid hp'
          have hfresh : ∀ l ∈ db.links, l.id ≠ db.nextLinkId :=
            fun l hl => Nat.ne_of_lt (hlnk.1 l hl).2
          have hstep := syncStep_hit_create a aid org t now r db srow ha hb' hh hvalid hfil
            hfresh hidnz hanz
          have hfold : syncFold (some a) org now (t :: ts) (r, db) =
              syncFold (some a) org now ts
                (r.add_linked,
                 { db with
                   links := db.links ++
                     [syncNewLinkRow srow.id aid t.1 t.2.1 now db.nextLinkId],
                   nextLinkId := db.nextLinkId + 1 }) := by
            unfold syncFold
            rw [List.foldl_cons, hstep]
          have hvalNew : validLinkRow
              (syncNewLinkRow srow.id aid t.1 t.2.1 now db.nextLinkId) = true := by
            rw [syncNewLinkRow_eq]
            simp [validLinkRow, validAcceptanceStatus, hidnz, hanz]
          have hWFC : linksWF
              (db.links ++ [syncNewLinkRow srow.id aid t.1 t.2.1 now db.nextLinkId])
              (db.nextLinkId + 1) :=
            linksWF_append_new db.links db.nextLinkId _ hlnk hvalNew rfl hp'
          obtain ⟨e1, e2, e3, e4, e5, e6, e7, e8, e9, e10⟩ :=
            ih r.add_linked
              { db with
                links := db.links ++
                  [syncNewLinkRow srow.id aid t.1 t.2.1 now db.nextLinkId],
                nextLinkId := db.nextLinkId + 1 }
              hstu hWFC
          rw [hfold]
          refine ⟨e1, e2, e3, e4, e5, ?_, ?_, ?_, e9, e10⟩
          · rw [e6]
            show r.linked_count + 1 + countHits db.students org ts =
              r.linked_count + countHits db.students org (t :: ts)
            rw [hcnt]
            omega
          · intro p
            rw [e7 p]
            have hPC : hasPair
                (db.links ++ [syncNewLinkRow srow.id aid t.1 t.2.1 now db.nextLinkId])
                p.1 p.2 =
                (hasPair db.links p.1 p.2 || (srow.id == p.1 && aid == p.2)) := by
              rw [hasPair_append_single]
              rfl
            rw [show (hasPair
                (db.links ++ [syncNewLinkRow srow.id aid t.1 t.2.1 now db.nextLinkId])
                p.1 p.2 = true) =
                ((hasPair db.links p.1 p.2 || (srow.id == p.1 && aid == p.2)) = true) from by
              rw [hPC], hhp]
            simp only [Bool.or_eq_true, Bool.and_eq_true, beq_iff_eq, List.mem_cons]
            constructor
            · rintro ((h | ⟨hs, hd⟩) | h)
              · exact Or.inl h
              · refine Or.inr (Or.inl ?_)
                cases p
                simp_all
              · exact Or.inr (Or.inr h)
            · rintro (h | (h | h))
              · exact Or.inl (Or.inl h)
              · refine Or.inl (Or.inr ?_)
                cases p
                simp_all
              · exact Or.inr h
          · intro l hl T hT l2 hl2 hid2
            exact e8 l (List.mem_append_left _ hl) T hT l2 hl2 hid2

/-! ## Resolution of the assignment (get-or-create) -/

theorem resolve_spec (name org : String) (now : Nat) (db : DB) (aOpt : Option Assignment)
    (dbA : DB) (hWF : db.WF)
    (h : resolveAssignment name org now db = .ok (aOpt, dbA)) :
    ∃ a aid, aOpt = some a ∧ a.id = some aid ∧ aid ≠ 0 ∧
      dbA.students = db.students ∧ dbA.links = db.links ∧
      dbA.nextLinkId = db.nextLinkId ∧ dbA.WF ∧
      (∀ (now2 : Nat) (X : DB), X.assignments = dbA.assignments →
        resolveAssignment name org now2 X = .ok (some a, X)) := by
  obtain ⟨hstu, hass, hlnk⟩ := hWF
  cases hf : (db.assignments.filter (fun x => x.name == name)).head? with
  | some row =>
    have hrmem : row ∈ db.assignments := (List.mem_filter.mp (List.mem_of_mem_head? hf)).1
    obtain ⟨hrval, hrnz, hrlt⟩ := hass.1 row hrmem
    have hgan : get_assignment_by_name name db = .ok (some (assignmentEnt row)) := by
      unfold get_assignment_by_name
      rw [hf]
      show Except.map some (assignmentOfRow row) = _
      rw [assignmentOfRow_valid row hrval]
      rfl
    unfold resolveAssignment at h
    simp only [hgan] at h
    injection h with h'
    injection h' with ha hb
    subst ha
    subst hb
    refine ⟨assignmentEnt row, row.id, rfl, rfl, hrnz, rfl, rfl, rfl,
      ⟨hstu, hass, hlnk⟩, ?_⟩
    intro now2 X hXa
    have hganX : get_assignment_by_name name X = .ok (some (assignmentEnt row)) := by
      unfold get_assignment_by_name
      rw [hXa, hf]
      show Except.map some (assignmentOfRow row) = _
      rw [assignmentOfRow_valid row hrval]
      rfl
    unfold resolveAssignment
    simp only [hganX]
  | none =>
    have hfil : db.assignments.filter (fun x => x.name == name) = [] :=
      List.head?_eq_none_iff.mp hf
    have hgan : get_assignment_by_name name db = .ok none := by
      unfold get_assignment_by_name
      rw [hf]
    unfold resolveAssignment at h
    simp only [hgan] at h
    split at h
    · exact Except.noConfusion h
    · rename_i a0 hval
      unfold Assignment.validate at hval
      split at hval
      · exact Except.noConfusion hval
      · split at hval
        · exact Except.noConfusion hval
        · split at hval
          · exact Except.noConfusion hval
          · rename_i hc1 hc2 hc3
            injection hval with hval'
            subst hval'
            simp only [Bool.or_eq_true, not_or] at hc1
            have hn : (name == "") = false := Bool.eq_false_iff.mpr hc1.1
            have ho : (org == "") = false := Bool.eq_false_iff.mpr hc1.2
            have hanyn : db.assignments.any (fun x => x.name == name) = false :=
              List.any_eq_false.mpr (List.filter_eq_nil_iff.mp hfil)
            have hadd : add_assignment (syncAssignmentEntity name org) now db =
                .ok (db.nextAssignmentId,
                  { db with
                    assignments := db.assignments ++
                      [assignmentInsertRow (syncAssignmentEntity name org) now
                        db.nextAssignmentId],
                    nextAssignmentId := db.nextAssignmentId + 1 }) := by
              unfold add_assignment
              rw [if_neg (by simp [syncAssignmentEntity, hanyn])]
            have hrowval : validAssignmentRow
                (assignmentInsertRow (syncAssignmentEntity name org) now
                  db.nextAssignmentId) = true := by
              simp [validAssignmentRow, assignmentInsertRow, syncAssignmentEntity,
                validAssignmentType, validAssignmentStatus, hn, ho]
            have hfo : db.assignments.filter (fun x => x.id == db.nextAssignmentId) = [] :=
              List.filter_eq_nil_iff.mpr (fun x hx => by
                simp [Nat.ne_of_lt (hass.1 x hx).2.2])
            have hgid : get_assignment_by_id db.nextAssignmentId
                { db with
                  assignments := db.assignments ++
                    [assignmentInsertRow (syncAssignmentEntity name org) now
                      db.nextAssignmentId],
                  nextAssignmentId := db.nextAssignmentId + 1 } =
                .ok (some (assignmentEnt
                  (assignmentInsertRow (syncAssignmentEntity name org) now
                    db.nextAssignmentId))) := by
              unfold get_assignment_by_id
              rw [show ({ db with
                  assignments := db.assignments ++
                    [assignmentInsertRow (syncAssignmentEntity name org) now
                      db.nextAssignmentId],
                  nextAssignmentId := db.nextAssignmentId + 1 } : DB).assignments =
                db.assignments ++
                  [assignmentInsertRow (syncAssignmentEntity name org) now
                    db.nextAssignmentId] from rfl]
              rw [List.filter_append, hfo]
              simp only [List.nil_append, List.filter_cons, List.filter_nil]
              rw [show ((assignmentInsertRow (syncAssignmentEntity name org) now
                  db.nextAssignmentId).id == db.nextAssignmentId) = true from by
                simp [assignmentInsertRow]]
              show Except.map some (assignmentOfRow _) = _
              rw [assignmentOfRow_valid _ hrowval]
              rfl
            simp only [hadd, hgid] at h
            injection h with h'
            injection h' with ha hb
            subst ha
            subst hb
            refine ⟨_, db.nextAssignmentId, rfl, rfl,
              Nat.pos_iff_ne_zero.mp hass.2.2, rfl, rfl, rfl,
              ⟨hstu, ?_, hlnk⟩, ?_⟩
            · refine ⟨?_, ?_, ?_⟩
              · intro x hx
                rcases List.mem_append.mp hx with hx | hx
                · obtain ⟨v1, v2, v3⟩ := hass.1 x hx
                  exact ⟨v1, v2, Nat.lt_succ_of_lt v3⟩
                · rw [List.mem_singleton] at hx
                  subst hx
                  exact ⟨hrowval, Nat.pos_iff_ne_zero.mp hass.2.2, Nat.lt_succ_self _⟩
              · rw [List.map_append, List.nodup_append]
                refine ⟨hass.2.1, by simp, ?_⟩
                simp only [List.map_cons, List.map_nil, List.disjoint_singleton]
                intro hmem
                rw [List.mem_map] at hmem
                obtain ⟨x, hx, hidx⟩ := hmem
                have hlt := (hass.1 x hx).2.2
                rw [hidx] at hlt
                exact absurd hlt (Nat.lt_irrefl _)
              · exact Nat.succ_pos _
            · intro now2 X hXa
              have hganX : get_assignment_by_name name X =
                  .ok (some (assignmentEnt
                    (assignmentInsertRow (syncAssignmentEntity name org) now
                      db.nextAssignmentId))) := by
                unfold get_assignment_by_name
                rw [hXa]
                rw [show ({ db with
                    assignments := db.assignments ++
                      [assignmentInsertRow (syncAssignmentEntity name org) now
                        db.nextAssignmentId],
                    nextAssignmentId := db.nextAssignmentId + 1 } : DB).assignments =
                  db.assignments ++
                    [assignmentInsertRow (syncAssignmentEntity name org) now
                      db.nextAssignmentId] from rfl]
                rw [List.filter_append, hfil]
                simp only [List.nil_append, List.filter_cons, List.filter_nil]
                rw [show ((assignmentInsertRow (syncAssignmentEntity name org) now
                    db.nextAssignmentId).name == name) = true from by
                  simp [assignmentInsertRow, syncAssignmentEntity]]
                show Except.map some (assignmentOfRow _) = _
                rw [assignmentOfRow_valid _ hrowval]
                rfl
              unfold resolveAssignment
              simp only [hganX]

/-! ## C2 -/

/-- C2: on a well-formed store, a successful `sync_repositories` run followed
by a second run with the identical input leaves the same set of
student-assignment links (at most one row per `(student, assignment)` pair, no
duplicates, and no pair appears or disappears), and the second run's
`linked_count` equals the first run's. -/
theorem C2_theorem (name org : String) (repos : List Triple) (now1 now2 : Nat) (db : DB)
    (r1 : SyncResult) (db1 : DB)
    (hWF : db.WF)
    (h1 : sync_repositories name org repos now1 db = .ok (r1, db1)) :
    (sync_repositories name org repos now2 db1).isOk = true ∧
    ∀ r2 db2, sync_repositories name org repos now2 db1 = .ok (r2, db2) →
      r2.linked_count = r1.linked_count ∧
      (∀ p : Nat × Nat, hasPair db2.links p.1 p.2 = hasPair db1.links p.1 p.2) ∧
      (linkPairs db2.links).Nodup ∧ (linkPairs db1.links).Nodup := by
  unfold sync_repositories at h1
  split at h1
  · exact Except.noConfusion h1
  · rename_i aOpt dbA hres
    injection h1 with h1'
    obtain ⟨a, aid, haOpt, ha, hanz, hSt, hLk, hNx, hWFA, hstab⟩ :=
      resolve_spec name org now1 db aOpt dbA hWF hres
    subst haOpt
    obtain ⟨f1, f2, f3, f4, f5, f6, f7, f8, f9, f10⟩ :=
      sync_fold_spec a aid ha hanz org now1 repos (syncInit repos) dbA hWFA.1 hWFA.2.2
    have hr1 : (syncFold (some a) org now1 repos (syncInit repos, dbA)).1 = r1 :=
      congrArg Prod.fst h1'
    have hdb1 : (syncFold (some a) org now1 repos (syncInit repos, dbA)).2 = db1 :=
      congrArg Prod.snd h1'
    subst hr1
    subst hdb1
    have hres2 : resolveAssignment name org now2
        (syncFold (some a) org now1 repos (syncInit repos, dbA)).2 =
        .ok (some a, (syncFold (some a) org now1 repos (syncInit repos, dbA)).2) :=
      hstab now2 _ f2
    constructor
    · unfold sync_repositories
      rw [hres2]
      rfl
    · intro r2 db2 h2
      unfold sync_repositories at h2
      rw [hres2] at h2
      injection h2 with h2'
      have hr2 : (syncFold (some a) org now2 repos
          (syncInit repos, (syncFold (some a) org now1 repos (syncInit repos, dbA)).2)).1
          = r2 := congrArg Prod.fst h2'
      have hdb2 : (syncFold (some a) org now2 repos
          (syncInit repos, (syncFold (some a) org now1 repos (syncInit repos, dbA)).2)).2
          = db2 := congrArg Prod.snd h2'
      subst hr2
      subst hdb2
      obtain ⟨g1, g2, g3, g4, g5, g6, g7, g8, g9, g10⟩ :=
        sync_fold_spec a aid ha hanz org now2 repos (syncInit repos)
          (syncFold (some a) org now1 repos (syncInit repos, dbA)).2
          (by rw [f1]; exact hWFA.1) f5
      refine ⟨?_, ?_, g5.2.2, f5.2.2⟩
      · rw [g6, f6, f1]
      · intro p
        apply Bool.eq_iff_iff.mpr
        constructor
        · intro hb2
          rcases (g7 p).mp hb2 with hIn | hIn
          · exact hIn
          · rw [f1] at hIn
            exact (f7 p).mpr (Or.inr hIn)
        · intro hb1
          exact (g7 p).mpr (Or.inl hb1)

/-- Witness for C2: one discovered repo reconciled twice over a concrete store;
the second run keeps the single link and the same linked count. -/
theorem C2_witness :
    (sync_repositories "hw" "test-org" reposW 7 db1W).isOk = true ∧
    hasPair db2W.links 1 1 = hasPair db1W.links 1 1 ∧
    (linkPairs db2W.links).Nodup ∧ (linkPairs db1W.links).Nodup := by
  have hmain := C2_theorem "hw" "test-org" reposW 7 7 dbSync r1W db1W (by decide) (by decide)
  have hsub := hmain.2 r1W db2W (by decide)
  exact ⟨hmain.1, hsub.2.1 (1, 1), hsub.2.2.1, hsub.2.2.2⟩

/-! ## C3 -/

/-- C3: in the update branch of the reconciler (existing link present), the
link row is rewritten with the triple's repository url and name, status
"accepted", `last_synced_at := now`, the accepted timestamp kept when already
set and stamped to now only when previously unset, and `linked_count` is
incremented; moreover a whole well-formed reconcile run never changes an
already-set `accepted_at` of any stored link. -/
theorem C3_theorem :
    (∀ (a : Assignment) (aid : Nat) (org : String) (t : Triple) (now : Nat)
       (r : SyncResult) (db : DB) (srow : StudentRow) (lrow : LinkRow),
      a.id = some aid →
      strFalsy t.2.2 = false →
      (ghRows db.students t.2.2 (some org)).head? = some srow →
      validStudentRow srow = true →
      (db.links.filter (pairPred (some srow.id) (some aid))).head? = some lrow →
      validLinkRow lrow = true →
      syncItemStep (some a) org t now (r, db) =
        (r.add_linked,
         { db with links := db.links.map (fun l =>
             if l.id == lrow.id then updLinkRow (syncUpdEntity lrow t.1 t.2.1 now) now l
             else l) }) ∧
      r.add_linked.linked_count = r.linked_count + 1 ∧
      (syncUpdEntity lrow t.1 t.2.1 now).repository_url = some t.2.1 ∧
      (syncUpdEntity lrow t.1 t.2.1 now).repository_name = some t.1 ∧
      (syncUpdEntity lrow t.1 t.2.1 now).acceptance_status = "accepted" ∧
      (syncUpdEntity lrow t.1 t.2.1 now).last_synced_at = some now ∧
      (∀ T, lrow.accepted_at = some T →
        (syncUpdEntity lrow t.1 t.2.1 now).accepted_at = some T) ∧
      (lrow.accepted_at = none →
        (syncUpdEntity lrow t.1 t.2.1 now).accepted_at = some now)) ∧
    (∀ (name org : String) (repos : List Triple) (now : Nat) (db : DB) (r1 : SyncResult)
       (db1 : DB),
      db.WF →
      sync_repositories name org repos now db = .ok (r1, db1) →
      ∀ l ∈ db.links, ∀ T, l.accepted_at = some T →
        ∀ l2 ∈ db1.links, l2.id = l.id → l2.accepted_at = some T) := by
  constructor
  · intro a aid org t now r db srow lrow ha h1 h2 h3 h4 h5
    refine ⟨syncStep_hit_update a aid org t now r db srow lrow ha h1 h2 h3 h4 h5,
      rfl, rfl, rfl, rfl, rfl, ?_, ?_⟩
    · intro T hT
      show some (lrow.accepted_at.getD now) = some T
      rw [hT]
      rfl
    · intro hN
      show some (lrow.accepted_at.getD now) = some now
      rw [hN]
      rfl
  · intro name org repos now db r1 db1 hWF hrun l hl T hT l2 hl2 hid
    unfold sync_repositories at hrun
    split at hrun
    · exact Except.noConfusion hrun
    · rename_i aOpt dbA hres
      injection hrun with hrun'
      obtain ⟨a, aid, haOpt, ha, hanz, hSt, hLk, hNx, hWFA, hstab⟩ :=
        resolve_spec name org now db aOpt dbA hWF hres
      subst haOpt
      obtain ⟨f1, f2, f3, f4, f5, f6, f7, f8, f9, f10⟩ :=
        sync_fold_spec a aid ha hanz org now repos (syncInit repos) dbA hWFA.1 hWFA.2.2
      have hdb1 : (syncFold (some a) org now repos (syncInit repos, dbA)).2 = db1 :=
        congrArg Prod.snd hrun'
      subst hdb1
      have hlA : l ∈ dbA.links := by rw [hLk]; exact hl
      exact f8 l hlA T hT l2 hl2 hid

/-- Witness for C3: a concrete update-branch step on a store whose link has
`accepted_at = some 3`, plus a whole run over that store keeping the timestamp. -/
theorem C3_witness :
    syncItemStep (some (assignmentEnt hwRow)) "test-org" ("hw-alice", "newurl", some "alice")
      9 (r0W, dbC3) =
      (r0W.add_linked,
       { dbC3 with links := dbC3.links.map (fun l =>
           if l.id == acceptedLinkRow.id then
             updLinkRow (syncUpdEntity acceptedLinkRow "hw-alice" "newurl" 9) 9 l
           else l) }) ∧
    (syncUpdEntity acceptedLinkRow "hw-alice" "newurl" 9).accepted_at = some 3 ∧
    (syncUpdEntity acceptedLinkRow "hw-alice" "newurl" 9).last_synced_at = some 9 ∧
    updatedC3Row.accepted_at = some 3 := by
  have hpart1 := C3_theorem.1 (assignmentEnt hwRow) 1 "test-org"
    ("hw-alice", "newurl", some "alice") 9 r0W dbC3 aliceRow acceptedLinkRow
    (by decide) (by decide) (by decide) (by decide) (by decide) (by decide)
  have hpart2 := C3_theorem.2 "hw" "test-org" [("hw-alice", "newurl", some "alice")] 9
    dbC3 r1W dbC3' (by decide) (by decide) acceptedLinkRow (by decide) 3 (by decide)
    updatedC3Row (by decide) (by decide)
  exact ⟨hpart1.1, hpart1.2.2.2.2.2.2.1 3 (by decide), hpart1.2.2.2.2.2.1, hpart2⟩

/-! ## C1 -/

/-- C1 (amended): a per-item exception inside the repository loop of
`sync_repositories` is caught by the handler, which appends exactly one error
message identified by `repo_name`; the item is NOT added to `unlinked_repos`
and `unlinked_count` and `linked_count` are unchanged by the handler;
processing continues with the remaining triples, and the call still returns a
`SyncResult` (the loop itself never propagates). -/
theorem C1_theorem :
    (∀ (aOpt : Option Assignment) (org : String) (t : Triple) (now : Nat)
       (r : SyncResult) (db : DB) (e : String) (db1 : DB),
      syncItemBody aOpt org t now r db = .error (e, db1) →
      syncItemStep aOpt org t now (r, db) =
        (r.add_error ("Error processing " ++ t.1 ++ ": " ++ e), db1) ∧
      (r.add_error ("Error processing " ++ t.1 ++ ": " ++ e)).unlinked_count =
        r.unlinked_count ∧
      (r.add_error ("Error processing " ++ t.1 ++ ": " ++ e)).unlinked_repos =
        r.unlinked_repos ∧
      (r.add_error ("Error processing " ++ t.1 ++ ": " ++ e)).linked_count =
        r.linked_count ∧
      (r.add_error ("Error processing " ++ t.1 ++ ": " ++ e)).errors =
        r.errors ++ [("Error processing " ++ t.1 ++ ": " ++ e)]) ∧
    (∀ (aOpt : Option Assignment) (org : String) (t : Triple) (rest : List Triple)
       (now : Nat) (acc : SyncResult × DB),
      syncFold aOpt org now (t :: rest) acc =
        syncFold aOpt org now rest (syncItemStep aOpt org t now acc)) ∧
    (∀ (name org : String) (repos : List Triple) (now : Nat) (db : DB)
       (x : Option Assignment × DB),
      resolveAssignment name org now db = .ok x →
      (sync_repositories name org repos now db).isOk = true) := by
  refine ⟨?_, ?_, ?_⟩
  · intro aOpt org t now r db e db1 h
    refine ⟨?_, rfl, rfl, rfl, rfl⟩
    unfold syncItemStep
    rw [h]
  · intro aOpt org t rest now acc
    rfl
  · intro name org repos now db x hres
    unfold sync_repositories
    rw [hres]
    rfl

/-- Witness for C1 (amended theorem) on the concrete store `dbC1`, whose link
row carries an acceptance status that `from_dict` rejects. -/
theorem C1_witness :
    syncItemStep (some (assignmentEnt hwRow)) "test-org" ("r1", "u1", some "alice") 5
      (r0W, dbC1) =
      (r0W.add_error
        ("Error processing r1: acceptance_status must be one of pending, accepted, completed, submitted"),
        dbC1) ∧
    (r0W.add_error
      ("Error processing r1: acceptance_status must be one of pending, accepted, completed, submitted")).unlinked_count
      = r0W.unlinked_count ∧
    (sync_repositories "hw" "test-org" [("r1", "u1", some "alice")] 5 dbC1).isOk = true := by
  have hp := C1_theorem.1 (some (assignmentEnt hwRow)) "test-org" ("r1", "u1", some "alice")
    5 r0W dbC1
    ("acceptance_status must be one of pending, accepted, completed, submitted") dbC1
    (by decide)
  have hiso := C1_theorem.2.2 "hw" "test-org" [("r1", "u1", some "alice")] 5 dbC1
    (some (assignmentEnt hwRow), dbC1) (by decide)
  exact ⟨hp.1, hp.2.1, hiso⟩

/-- Counterexample to C1 as stated: on the reachable store `dbC1` the per-item
error is caught (one error message is appended, identified by repo name `r1`),
but the item is NOT downgraded to unlinked — `unlinked_count` stays 0 and
`unlinked_repos` stays empty, contradicting the claimed
`add_unlinked` behavior. -/
theorem C1_counterexample :
    sync_repositories "hw" "test-org" [("r1", "u1", some "alice")] 5 dbC1 =
      .ok (resC1, dbC1) ∧
    resC1.errors =
      ["Error processing r1: acceptance_status must be one of pending, accepted, completed, submitted"] ∧
    resC1.unlinked_count = 0 ∧
    resC1.unlinked_repos = [] ∧
    resC1.linked_count = 0 := by
  refine ⟨by decide, rfl, rfl, rfl, rfl⟩
